import Mathlib

/-!
# SN32 CT16B1 PWM low level driver and core clock

A shallow embedding of `os/hal/ports/SN32/LLD/SN32F24xB/CT/hal_pwm_lld.c`, of
`SystemCoreClockUpdate` in `os/common/ext/SONiX/SN32F2xx/system_SN32F240.c`
and of the prescaler macros of `os/hal/ports/SN32/SN32F240/sn32_sys1.h`.

* The timer register block `pwmp->ct`, the clock-gate bitfield
  `SN_SYS1->AHBCLKEN_b.CT16B1CLKEN`, the interrupt controller and the global
  `SystemCoreClock` form the hardware state `HW`.  Registers are plain 32-bit
  cells: a read returns the value last written.
* Every volatile access and every call the driver makes is appended, in
  program order, to `Sys.trace`.
* Machine integers are `Nat`; the three computations that can wrap
  (`clock / frequency - 1`, `(psc + 1) * frequency`, `period - 1`) carry an
  explicit `% 2 ^ 32`.
* The constants and build switches the driver takes from headers that are not
  part of the sources are collected in `HalDefs` and are a parameter of every
  function.
* User callbacks act on the hardware state; the driver object and its
  configuration (`const PWMConfig *`) are not changed by them.
* `SystemCoreClockUpdate` is a function of the build configuration
  (`ClockConfig`) and of the two register values it reads; a division by zero
  or an overflowing `int` product makes its result `none`.
-/

namespace SN32

/-- Driver states of the PWM HAL (`pwmstate_t`). -/
inductive pwmstate_t where
  | PWM_UNINIT
  | PWM_STOP
  | PWM_READY
deriving DecidableEq, Repr

/-- Registers: the fields of the timer block `pwmp->ct` used by
`hal_pwm_lld.c`, the one-bit field `AHBCLKEN_b.CT16B1CLKEN` of `SN_SYS1`, and
the per-channel match registers `MR channel` of the register map.
`MRchannel` is the single member of that name to which
`pwm_lld_enable_channel` and `pwm_lld_disable_channel` store; the driver
source names no other match register. -/
inductive Reg where
  | TMRCTRL
  | TC
  | PRE
  | CT
  | PWMCTRL
  | PWMCTRL2
  | PWMENB
  | PWMIOENB
  | RIS
  | IC
  | MR (channel : Nat)
  | MRchannel
  | CT16B1CLKEN
deriving DecidableEq, Repr

/-- Hardware state: register cells, the interrupt controller (for each vector,
`none` when disabled and `some priority` when enabled) and the global
`SystemCoreClock`. -/
structure HW where
  regs : Reg → Nat
  nvic : Nat → Option Nat
  SystemCoreClock : Nat

/-- One entry of the access log. -/
inductive Op where
  | rd (r : Reg)
  | wr (r : Reg) (v : Nat)
  | CT16B1_Init
  | CT16B1_Reset
  | nvicEnableVector (n : Nat) (prio : Nat)
  | nvicDisableVector (n : Nat)
  | channelCallback (channel : Nat)
  | periodCallback
deriving DecidableEq, Repr

/-- Per-channel configuration record (`PWMChannelConfig`): output mode and
optional callback (`NULL` is `none`). -/
structure PWMChannelConfig where
  mode : Nat
  callback : Option (HW → HW)

/-- Driver configuration (`PWMConfig`). -/
structure PWMConfig where
  frequency : Nat
  period : Nat
  callback : Option (HW → HW)
  channels : Nat → PWMChannelConfig

/-- The driver object (`PWMDriver`).  `isPWMD1` is the outcome of the test
`&PWMD1 == pwmp`. -/
structure PWMDriver where
  state : pwmstate_t
  config : PWMConfig
  period : Nat
  clock : Nat
  isPWMD1 : Bool

/-- Driver object, hardware and access log. -/
structure Sys where
  pwmp : PWMDriver
  hw : HW
  trace : List Op

/-- Declarations used by `hal_pwm_lld.c` whose headers (`hal_pwm.h`, `CT16.h`,
`mcuconf.h`, the device header) are not part of the sources.  The per-channel
families `CT16_PWM0MODE_1 .. CT16_PWM23MODE_1` and `mskCT16_MR0IF ..
mskCT16_MR23IF` are functions of the channel number;
`mskCT16_PWMchannelIOEN_DIS` is the single identifier of that name.
`SN32_CT16B1_SUPPRESS_ISR` is `true` when that symbol is defined. -/
structure HalDefs where
  SN32_PWM_USE_CT16B1 : Bool
  SN32_CT16B1_SUPPRESS_ISR : Bool
  SN32_CT16B1_NUMBER : Nat
  SN32_PWM_CT16B1_IRQ_PRIORITY : Nat
  PWM_OUTPUT_MASK : Nat
  PWM_OUTPUT_ACTIVE_HIGH : Nat
  PWM_OUTPUT_ACTIVE_LOW : Nat
  CT16_PWMnMODE_1 : Nat → Nat
  CT16_PWMnMODE_2 : Nat → Nat
  CT16_CEN_DIS : Nat
  mskCT16_CEN_EN : Nat
  mskCT16_MRnIF : Nat → Nat
  mskCT16_PWMchannelIOEN_DIS : Nat
  DISABLE : Nat

/-- Modelled from the spec: the header constants, which are missing from the
sources.  Mode fields sit at bit positions `channel*2` (`MODE_1`) and
`channel*2+1` (`MODE_2`) of control register 1 for channels 0-15 and at the
same positions, counted from channel 16, of control register 2 for channels
16-23 (active-high is `0b10`, active-low `0b11`); raw status bit `i` belongs
to channel `i`.  The driver is built for CT16B1 with its own interrupt
handler.  The output-mode values are those of the ChibiOS PWM HAL, and the
`_DIS` / `DISABLE` values are 0 and the count-enable mask is bit 0, as the
vendor naming has it. -/
def sn32 : HalDefs where
  SN32_PWM_USE_CT16B1 := true
  SN32_CT16B1_SUPPRESS_ISR := false
  SN32_CT16B1_NUMBER := 16
  SN32_PWM_CT16B1_IRQ_PRIORITY := 3
  PWM_OUTPUT_MASK := 0x0F
  PWM_OUTPUT_ACTIVE_HIGH := 0x01
  PWM_OUTPUT_ACTIVE_LOW := 0x02
  CT16_PWMnMODE_1 := fun n => 2 ^ (2 * (n % 16))
  CT16_PWMnMODE_2 := fun n => 2 ^ (2 * (n % 16) + 1)
  CT16_CEN_DIS := 0
  mskCT16_CEN_EN := 1
  mskCT16_MRnIF := fun n => 2 ^ n
  mskCT16_PWMchannelIOEN_DIS := 0
  DISABLE := 0

/-- Ways in which `pwm_lld_start` does not return. -/
inductive Fault where
  | divisionByZero
  | assertion (msg : String)
deriving DecidableEq, Repr

/-! ## Register access -/

/-- A volatile store `reg = v`: update the cell and log the write. -/
def Sys.write (s : Sys) (r : Reg) (v : Nat) : Sys :=
  { s with
    hw := { s.hw with regs := fun x => if x = r then v else s.hw.regs x }
    trace := s.trace ++ [Op.wr r v] }

/-- A volatile load: log the read. The value read is `s.hw.regs r`. -/
def Sys.read (s : Sys) (r : Reg) : Sys :=
  { s with trace := s.trace ++ [Op.rd r] }

/-- Modelled from the spec: `CT16B1_Init` (vendor library, missing from the
sources), "enable the peripheral clock gate". -/
def CT16B1_Init (s : Sys) : Sys :=
  { s with
    hw := { s.hw with regs := fun x => if x = Reg.CT16B1CLKEN then 1 else s.hw.regs x }
    trace := s.trace ++ [Op.CT16B1_Init] }

/-- Modelled from the spec: `CT16B1_Reset` (vendor library, missing from the
sources), "reset the timer": the counter returns to zero. -/
def CT16B1_Reset (s : Sys) : Sys :=
  { s with
    hw := { s.hw with regs := fun x => if x = Reg.TC then 0 else s.hw.regs x }
    trace := s.trace ++ [Op.CT16B1_Reset] }

/-- Modelled from the spec: `nvicEnableVector` (interrupt controller, missing
from the sources), "enable its interrupt vector at a configured priority". -/
def nvicEnableVector (n prio : Nat) (s : Sys) : Sys :=
  { s with
    hw := { s.hw with nvic := fun v => if v = n then some prio else s.hw.nvic v }
    trace := s.trace ++ [Op.nvicEnableVector n prio] }

/-- Modelled from the spec: `nvicDisableVector` (interrupt controller, missing
from the sources), "disables the interrupt vector". -/
def nvicDisableVector (n : Nat) (s : Sys) : Sys :=
  { s with
    hw := { s.hw with nvic := fun v => if v = n then none else s.hw.nvic v }
    trace := s.trace ++ [Op.nvicDisableVector n] }

/-! ## `pwm_lld_start` -/

/-- First part of `pwm_lld_start` (lines 110-134): clock activation and timer
reset when the driver is stopped, otherwise the re-configuration path. -/
def start_activate (K : HalDefs) (s : Sys) : Sys :=
  if s.pwmp.state = pwmstate_t.PWM_STOP then
    let s1 :=
      if K.SN32_PWM_USE_CT16B1 && s.pwmp.isPWMD1 then
        let a := CT16B1_Reset (CT16B1_Init s)
        let b :=
          if K.SN32_CT16B1_SUPPRESS_ISR then a
          else nvicEnableVector K.SN32_CT16B1_NUMBER K.SN32_PWM_CT16B1_IRQ_PRIORITY a
        { b with pwmp := { b.pwmp with clock := b.hw.SystemCoreClock } }
      else s
    (((s1.write Reg.PWMCTRL 1).write Reg.PWMCTRL2 1).write Reg.PWMENB 1).write Reg.PWMIOENB 1
  else
    (s.write Reg.TMRCTRL K.CT16_CEN_DIS).write Reg.TC 0

/-- The prescaler `psc = (pwmp->clock / pwmp->config->frequency) - 1` in
`uint32_t` arithmetic. -/
def start_psc (clock frequency : Nat) : Nat :=
  (clock / frequency + 2 ^ 32 - 1) % 2 ^ 32

/-- The period register value `pwmp->period - 1` in `uint32_t` arithmetic. -/
def start_period (period : Nat) : Nat :=
  (period + 2 ^ 32 - 1) % 2 ^ 32

/-- The condition of `osalDbgAssert(..., "invalid frequency")`:
`(psc <= 0xFFFF) && ((psc + 1) * frequency) == clock`, the product taken in
`uint32_t` arithmetic. -/
def start_assert (clock frequency : Nat) : Bool :=
  decide (start_psc clock frequency ≤ 0xFFFF) &&
    decide (((start_psc clock frequency + 1) * frequency) % 2 ^ 32 = clock)

/-- One `switch (channels[i].mode & PWM_OUTPUT_MASK)` block with its
fall-through: `ACTIVE_LOW` ors in `MODE_1` and then `MODE_2`, `ACTIVE_HIGH`
ors in `MODE_2`, anything else leaves the accumulator alone. -/
def outputSwitch (K : HalDefs) (i : Nat) (mode : Nat) (acc : Nat) : Nat :=
  if mode &&& K.PWM_OUTPUT_MASK = K.PWM_OUTPUT_ACTIVE_LOW then
    (acc ||| K.CT16_PWMnMODE_1 i) ||| K.CT16_PWMnMODE_2 i
  else if mode &&& K.PWM_OUTPUT_MASK = K.PWM_OUTPUT_ACTIVE_HIGH then
    acc ||| K.CT16_PWMnMODE_2 i
  else acc

/-- The local `pwmctrl` after the switch blocks of channels 0..15. -/
def start_pwmctrl (K : HalDefs) (cfg : PWMConfig) : Nat :=
  (List.range 16).foldl (fun acc i => outputSwitch K i (cfg.channels i).mode acc) 0

/-- The local `pwmctrl2` after the switch blocks of channels 16..23. -/
def start_pwmctrl2 (K : HalDefs) (cfg : PWMConfig) : Nat :=
  (List.range' 16 8).foldl (fun acc i => outputSwitch K i (cfg.channels i).mode acc) 0

/-- Second part of `pwm_lld_start` (lines 141-393), after the assertion:
prescaler and period, the two stores to `PWMCTRL` (the source stores both
`pwmctrl` and `pwmctrl2` there), pending interrupts, count enable. -/
def start_configure (K : HalDefs) (s : Sys) : Sys :=
  let s1 := s.write Reg.PRE (start_psc s.pwmp.clock s.pwmp.config.frequency)
  let s2 := s1.write Reg.CT (start_period s1.pwmp.period)
  let s3 := s2.write Reg.PWMCTRL (start_pwmctrl K s2.pwmp.config)
  let s4 := s3.write Reg.PWMCTRL (start_pwmctrl2 K s3.pwmp.config)
  let s5 := s4.write Reg.IC 1
  let s6 := s5.read Reg.TMRCTRL
  s6.write Reg.TMRCTRL (s5.hw.regs Reg.TMRCTRL ||| K.mskCT16_CEN_EN)

/-- The function `pwm_lld_start`.  A zero frequency makes the division
undefined; a false assertion halts (debug assertions enabled). -/
def pwm_lld_start (K : HalDefs) (s : Sys) : Except Fault Sys :=
  let s1 := start_activate K s
  if s1.pwmp.config.frequency = 0 then
    Except.error Fault.divisionByZero
  else if start_assert s1.pwmp.clock s1.pwmp.config.frequency then
    Except.ok (start_configure K s1)
  else
    Except.error (Fault.assertion "invalid frequency")

/-! ## `pwm_lld_stop`, channel enable and disable -/

/-- The function `pwm_lld_stop`. -/
def pwm_lld_stop (K : HalDefs) (s : Sys) : Sys :=
  if s.pwmp.state = pwmstate_t.PWM_READY then
    let s1 := (s.write Reg.TMRCTRL K.CT16_CEN_DIS).write Reg.IC 1
    if K.SN32_PWM_USE_CT16B1 && s1.pwmp.isPWMD1 then
      let s2 :=
        if K.SN32_CT16B1_SUPPRESS_ISR then s1
        else nvicDisableVector K.SN32_CT16B1_NUMBER s1
      s2.write Reg.CT16B1CLKEN (K.DISABLE % 2)
    else s1
  else s

/-- The function `pwm_lld_enable_channel`: the one statement
`pwmp->ct->MRchannel = width`.  The store goes to the member `MRchannel`; the
argument `channel` is not used. -/
def pwm_lld_enable_channel (s : Sys) (_channel : Nat) (width : Nat) : Sys :=
  s.write Reg.MRchannel width

/-- The function `pwm_lld_disable_channel`: `pwmp->ct->MRchannel = 0`, then
`pwmp->ct->PWMIOENB |= mskCT16_PWMchannelIOEN_DIS`.  Both statements name
fixed identifiers; the argument `channel` is not used. -/
def pwm_lld_disable_channel (K : HalDefs) (s : Sys) (_channel : Nat) : Sys :=
  let s1 := s.write Reg.MRchannel 0
  let s2 := s1.read Reg.PWMIOENB
  s2.write Reg.PWMIOENB (s1.hw.regs Reg.PWMIOENB ||| K.mskCT16_PWMchannelIOEN_DIS)

/-- The function `pwm_lld_enable_periodic_notification` (not supported). -/
def pwm_lld_enable_periodic_notification (s : Sys) : Sys := s

/-- The function `pwm_lld_disable_periodic_notification` (not supported). -/
def pwm_lld_disable_periodic_notification (s : Sys) : Sys := s

/-- The function `pwm_lld_enable_channel_notification` (not supported). -/
def pwm_lld_enable_channel_notification (s : Sys) (_channel : Nat) : Sys := s

/-- The function `pwm_lld_disable_channel_notification` (not supported). -/
def pwm_lld_disable_channel_notification (s : Sys) (_channel : Nat) : Sys := s

/-! ## `pwm_lld_serve_interrupt` -/

/-- One channel test of the interrupt handler:
`if (((ris & mskCT16_MRiIF) != 0) && (channels[i].callback != NULL))
   channels[i].callback(pwmp);` -/
def serve_channel (K : HalDefs) (ris : Nat) (s : Sys) (i : Nat) : Sys :=
  if ris &&& K.mskCT16_MRnIF i ≠ 0 then
    match (s.pwmp.config.channels i).callback with
    | some cb => { s with hw := cb s.hw, trace := s.trace ++ [Op.channelCallback i] }
    | none => s
  else s

/-- The function `pwm_lld_serve_interrupt`: one read of `RIS`, the 24 channel
tests in ascending order, then the test of `ris & IC` for the driver callback
(the source reads `IC` through `gptp`, taken to be the same timer). -/
def pwm_lld_serve_interrupt (K : HalDefs) (s : Sys) : Sys :=
  let ris := s.hw.regs Reg.RIS
  let s1 := (List.range 24).foldl (serve_channel K ris) (s.read Reg.RIS)
  let s2 := s1.read Reg.IC
  if ris &&& s1.hw.regs Reg.IC ≠ 0 then
    match s2.pwmp.config.callback with
    | some cb => { s2 with hw := cb s2.hw, trace := s2.trace ++ [Op.periodCallback] }
    | none => s2
  else s2

/-- The channels whose callbacks a log records, in the order of the calls. -/
def callbackCalls (tr : List Op) : List Nat :=
  tr.filterMap (fun o => match o with
    | Op.channelCallback i => some i
    | _ => none)

/-! ## Observations on states and sample inputs -/

/-- A quiet hardware state: every register zero, no vector enabled, a 48 MHz
core clock. -/
def hw0 : HW :=
  { regs := fun _ => 0, nvic := fun _ => none, SystemCoreClock := 48000000 }

/-- A channel without callback. -/
def chan (mode : Nat) : PWMChannelConfig :=
  { mode := mode, callback := none }

/-- A 1 MHz configuration with period 1000, no driver callback and the given
channel table. -/
def cfgOf (channels : Nat → PWMChannelConfig) : PWMConfig :=
  { frequency := 1000000, period := 1000, callback := none, channels := channels }

/-- The driver `PWMD1` in the given state with the given configuration, on
the quiet hardware, with an empty log. -/
def sysOf (st : pwmstate_t) (cfg : PWMConfig) : Sys :=
  { pwmp := { state := st, config := cfg, period := cfg.period, clock := 0, isPWMD1 := true }
    hw := hw0
    trace := [] }

/-- Stopped driver, every channel disabled. -/
def sysStopped : Sys :=
  sysOf pwmstate_t.PWM_STOP (cfgOf (fun _ => chan 0))

/-- Stopped driver, channel 0 active high, every other channel disabled. -/
def sysActiveHigh0 : Sys :=
  sysOf pwmstate_t.PWM_STOP
    (cfgOf (fun i => if i = 0 then chan sn32.PWM_OUTPUT_ACTIVE_HIGH else chan 0))

/-- Stopped driver, channel 16 active low, every other channel disabled. -/
def sysActiveLow16 : Sys :=
  sysOf pwmstate_t.PWM_STOP
    (cfgOf (fun i => if i = 16 then chan sn32.PWM_OUTPUT_ACTIVE_LOW else chan 0))

/-- The 2-bit field number `k` of a mode-control register value. -/
def modeField (v : Nat) (k : Nat) : Nat :=
  v / 2 ^ (2 * k) % 4

/-- The ascending list of the channels in 0..23 whose bit is set in the
status value `ris` and whose callback is not `NULL`. -/
def dueChannels (ris : Nat) (cfg : PWMConfig) : List Nat :=
  (List.range 24).filter
    (fun i => ris.testBit i && ((cfg.channels i).callback).isSome)

/-- The callbacks of the listed channels applied, one after the other, to the
hardware state. -/
def runCallbacks (cfg : PWMConfig) (l : List Nat) (h : HW) : HW :=
  l.foldl (fun h i => match (cfg.channels i).callback with
    | some cb => cb h
    | none => h) h

/-- A callback that clears the raw interrupt status register. -/
def clearRIS (h : HW) : HW :=
  { h with regs := fun x => if x = Reg.RIS then 0 else h.regs x }

/-- Ready driver with callbacks on channels 5 and 9 only (both clear the raw
status), entered with status bits 2, 5 and 9 set. -/
def sysIrq259 : Sys :=
  { pwmp :=
      { state := pwmstate_t.PWM_READY
        config := cfgOf (fun i =>
          { mode := 0, callback := if i = 5 ∨ i = 9 then some clearRIS else none })
        period := 1000
        clock := 48000000
        isPWMD1 := true }
    hw := { hw0 with regs := fun x => if x = Reg.RIS then 2 ^ 2 + 2 ^ 5 + 2 ^ 9 else 0 }
    trace := [] }

/-- Ready driver with every output enable bit of the 24 channels set and
match width 500 on every channel. -/
def sysRunning : Sys :=
  { pwmp :=
      { state := pwmstate_t.PWM_READY
        config := cfgOf (fun _ => chan sn32.PWM_OUTPUT_ACTIVE_HIGH)
        period := 1000
        clock := 48000000
        isPWMD1 := true }
    hw := { hw0 with
      regs := fun x => match x with
        | Reg.PWMIOENB => 0xFFFFFF
        | Reg.MR _ => 500
        | Reg.TMRCTRL => 1
        | Reg.CT16B1CLKEN => 1
        | _ => 0
      nvic := fun v => if v = 16 then some 3 else none }
    trace := [] }

/-- The state in which `pwm_lld_start` returns when called on `sysStopped`. -/
def sysStarted : Sys :=
  start_configure sn32 (start_activate sn32 sysStopped)

/-- The hardware as `pwm_lld_start` leaves it, the driver marked ready by the
HAL, with the match register of channel 0 holding the width 500: channel 0 is
active (output enabled, non-zero width). -/
def sysEnabled0 : Sys :=
  { sysStarted with
    pwmp := { sysStarted.pwmp with state := pwmstate_t.PWM_READY }
    hw := { sysStarted.hw with
      regs := fun x => if x = Reg.MR 0 then 500 else sysStarted.hw.regs x } }

/-! ## `system_SN32F240.c`: the core clock -/

/-- Build configuration of `system_SN32F240.c`: the symbols of the `#ifndef`
block (lines 92-121), each of which `mcuconf.h` may set. -/
structure ClockConfig where
  SYS_CLOCK_SETUP : Nat
  EHS_FREQ : Nat
  PLL_MSEL : Nat
  PLL_PSEL : Nat
  PLL_FSEL : Nat
  PLL_CLKIN : Nat
deriving DecidableEq, Repr

/-- The default values of lines 92-121. -/
def defaultClockConfig : ClockConfig :=
  { SYS_CLOCK_SETUP := 1, EHS_FREQ := 12, PLL_MSEL := 24, PLL_PSEL := 3,
    PLL_FSEL := 0, PLL_CLKIN := 0 }

/-- Internal high-speed RC frequency, `(12000000UL)`. -/
def __IHRC_FREQ : Nat := 12000000

/-- Internal low-speed RC frequency, `(32000UL)`. -/
def __ILRC_FREQ : Nat := 32000

/-- External low-speed crystal frequency, `(32768UL)`. -/
def __ELS_XTAL_FREQ : Nat := 32768

/-- What `SystemCoreClockUpdate` reads and writes: the status field
`SN_SYS0->CLKCFG_b.SYSCLKST`, the register `SN_SYS0->AHBCP` and the global
`SystemCoreClock`. -/
structure ClockState where
  SYSCLKST : Nat
  AHBCP : Nat
  SystemCoreClock : Nat
deriving DecidableEq, Repr

/-- The product `EHS_FREQ * 1000000` of two `int` constants; it is undefined
when it does not fit a 32-bit `int`. -/
def ehsHz (C : ClockConfig) : Option Nat :=
  if C.EHS_FREQ * 1000000 < 2 ^ 31 then some (C.EHS_FREQ * 1000000) else none

/-- The `case 4` (PLL) branch of `SystemCoreClockUpdate` (lines 177-191).  The
chain `F_CLKIN / F * PLL_MSEL / PLL_PSEL / 2` is evaluated left to right in
32-bit unsigned arithmetic; a zero `PLL_PSEL` divides by zero. -/
def pllClock (C : ClockConfig) : Option Nat :=
  if C.SYS_CLOCK_SETUP ≠ 0 then
    let F := if C.PLL_FSEL = 0 then 1 else 2
    if C.PLL_PSEL = 0 then none
    else if C.PLL_CLKIN = 0 then
      some ((__IHRC_FREQ / F * C.PLL_MSEL) % 2 ^ 32 / C.PLL_PSEL / 2)
    else
      match ehsHz C with
      | some f => some ((f / F * C.PLL_MSEL) % 2 ^ 32 / C.PLL_PSEL / 2)
      | none => none
  else some 50000000

/-- The first `switch` of `SystemCoreClockUpdate` (lines 159-194): the value
of `SystemCoreClock` before the division.  With `SYS_CLOCK_SETUP` off, case 2
divides by the local `AHB_prescaler` while it is still 0; the `default` case
leaves the global as it was. -/
def clockSource (C : ClockConfig) (st : ClockState) : Option Nat :=
  match st.SYSCLKST with
  | 0 => some __IHRC_FREQ
  | 1 => some __ILRC_FREQ
  | 2 => if C.SYS_CLOCK_SETUP ≠ 0 then ehsHz C else none
  | 3 => some __ELS_XTAL_FREQ
  | 4 => pllClock C
  | _ => some st.SystemCoreClock

/-- The second `switch` of `SystemCoreClockUpdate` (lines 196-229): the local
`AHB_prescaler`, initialised to 0 and set for the register values 0..9. -/
def AHB_prescaler (AHBCP : Nat) : Nat :=
  match AHBCP with
  | 0 => 1
  | 1 => 2
  | 2 => 4
  | 3 => 8
  | 4 => 16
  | 5 => 32
  | 6 => 64
  | 7 => 128
  | 8 => 256
  | 9 => 512
  | _ => 0

/-- The function `SystemCoreClockUpdate`; `none` when a division by zero makes
the result undefined. -/
def SystemCoreClockUpdate (C : ClockConfig) (st : ClockState) : Option ClockState :=
  match clockSource C st with
  | none => none
  | some clk =>
    if AHB_prescaler st.AHBCP = 0 then none
    else some { st with SystemCoreClock := clk / AHB_prescaler st.AHBCP }

/-- The divider `P` documented for each `PSEL` value (lines 52-57). -/
def documentedP (PSEL : Nat) : Nat :=
  match PSEL with
  | 3 => 6
  | 4 => 8
  | 5 => 10
  | 6 => 12
  | 7 => 14
  | _ => 0

/-- The divider `F` documented for each `FSEL` value (lines 58-60). -/
def documentedF (FSEL : Nat) : Nat :=
  match FSEL with
  | 0 => 1
  | _ => 2

/-- The PLL input frequency `F_CLKIN` selected by `PLL_CLKIN` (lines 61-63). -/
def documentedCLKIN (C : ClockConfig) : Nat :=
  if C.PLL_CLKIN = 0 then 12000000 else C.EHS_FREQ * 1000000

/-- The direct lookup table of the specification for one channel: from the
masked polarity mode to the bits of the mode-control register, the `MODE_2`
bit alone for active high, the `MODE_1` and `MODE_2` bits for active low and
no bit for any other value. -/
def modeTable (K : HalDefs) (i : Nat) (m : Nat) : Nat :=
  if m = K.PWM_OUTPUT_ACTIVE_HIGH then K.CT16_PWMnMODE_2 i
  else if m = K.PWM_OUTPUT_ACTIVE_LOW then K.CT16_PWMnMODE_1 i ||| K.CT16_PWMnMODE_2 i
  else 0

/-- The channels in 0..23, ascending, whose test in the interrupt handler
succeeds for the status value `ris`: `(ris & mskCT16_MRiIF) != 0` and a
callback that is not `NULL`. -/
def matchedChannels (K : HalDefs) (ris : Nat) (cfg : PWMConfig) : List Nat :=
  (List.range 24).filter
    (fun i => decide (ris &&& K.mskCT16_MRnIF i ≠ 0) && ((cfg.channels i).callback).isSome)

/-! ## `sn32_sys1.h`: the peripheral clock prescaler macros -/

/-- The three APB clock prescaler registers of `SN_SYS1`, 32 bits each. -/
structure SYS1 where
  APBCP0 : Nat
  APBCP1 : Nat
  APBCP2 : Nat
deriving DecidableEq, Repr

/-- The macro `sys1SelectAPB0(mask)`: `SN_SYS1->APBCP0 |= (mask)`, the mask
converted to 32 bits; the read-back that follows changes nothing. -/
def sys1SelectAPB0 (mask : Nat) (s : SYS1) : SYS1 :=
  { s with APBCP0 := s.APBCP0 ||| mask % 2 ^ 32 }

/-- The macro `sys1SelectAPB1(mask)`: `SN_SYS1->APBCP1 |= (mask)`. -/
def sys1SelectAPB1 (mask : Nat) (s : SYS1) : SYS1 :=
  { s with APBCP1 := s.APBCP1 ||| mask % 2 ^ 32 }

/-- The macro `sys1SelectAPB2(mask)`: `SN_SYS1->APBCP2 |= (mask)`. -/
def sys1SelectAPB2 (mask : Nat) (s : SYS1) : SYS1 :=
  { s with APBCP2 := s.APBCP2 ||| mask % 2 ^ 32 }

/-- The peripherals that have a macro `sys1Select<X>PRE`. -/
inductive Peripheral where
  | CT16B0
  | CT16B1
  | CT16B2
  | CT32B0
  | CT32B1
  | CT32B2
  | ADC
  | SPI0
  | SPI1
  | USART0
  | USART1
  | I2C1
  | I2C0
  | I2S
  | WDT
  | CLKOUT
  | SYSTICK
deriving DecidableEq, Repr

/-- The macros `sys1Select<X>PRE(pre)`, one line per peripheral, each of the
form `if (pre > 0) sys1SelectAPBk(pre << n)`; `pre` is an unsigned value. -/
def sys1SelectPRE (p : Peripheral) (pre : Nat) (s : SYS1) : SYS1 :=
  match p with
  | Peripheral.CT16B0 => if pre > 0 then sys1SelectAPB0 (pre <<< 0) s else s
  | Peripheral.CT16B1 => if pre > 0 then sys1SelectAPB0 (pre <<< 4) s else s
  | Peripheral.CT16B2 => if pre > 0 then sys1SelectAPB1 (pre <<< 28) s else s
  | Peripheral.CT32B0 => if pre > 0 then sys1SelectAPB0 (pre <<< 8) s else s
  | Peripheral.CT32B1 => if pre > 0 then sys1SelectAPB0 (pre <<< 12) s else s
  | Peripheral.CT32B2 => if pre > 0 then sys1SelectAPB0 (pre <<< 28) s else s
  | Peripheral.ADC => if pre > 0 then sys1SelectAPB0 (pre <<< 16) s else s
  | Peripheral.SPI0 => if pre > 0 then sys1SelectAPB0 (pre <<< 20) s else s
  | Peripheral.SPI1 => if pre > 0 then sys1SelectAPB0 (pre <<< 24) s else s
  | Peripheral.USART0 => if pre > 0 then sys1SelectAPB1 (pre <<< 0) s else s
  | Peripheral.USART1 => if pre > 0 then sys1SelectAPB1 (pre <<< 4) s else s
  | Peripheral.I2C1 => if pre > 0 then sys1SelectAPB1 (pre <<< 24) s else s
  | Peripheral.I2C0 => if pre > 0 then sys1SelectAPB1 (pre <<< 8) s else s
  | Peripheral.I2S => if pre > 0 then sys1SelectAPB1 (pre <<< 12) s else s
  | Peripheral.WDT => if pre > 0 then sys1SelectAPB1 (pre <<< 20) s else s
  | Peripheral.CLKOUT => if pre > 0 then sys1SelectAPB2 (pre <<< 0) s else s
  | Peripheral.SYSTICK => if pre > 0 then sys1SelectAPB1 (pre <<< 16) s else s

/-- The macro `sys1SelectCT16B1PRE(pre)`. -/
def sys1SelectCT16B1PRE (pre : Nat) (s : SYS1) : SYS1 :=
  sys1SelectPRE Peripheral.CT16B1 pre s

/-- Index of the APB prescaler register (0, 1 or 2) that the macro of a
peripheral addresses. -/
def Peripheral.apb : Peripheral → Nat
  | Peripheral.CT16B0 => 0
  | Peripheral.CT16B1 => 0
  | Peripheral.CT16B2 => 1
  | Peripheral.CT32B0 => 0
  | Peripheral.CT32B1 => 0
  | Peripheral.CT32B2 => 0
  | Peripheral.ADC => 0
  | Peripheral.SPI0 => 0
  | Peripheral.SPI1 => 0
  | Peripheral.USART0 => 1
  | Peripheral.USART1 => 1
  | Peripheral.I2C1 => 1
  | Peripheral.I2C0 => 1
  | Peripheral.I2S => 1
  | Peripheral.WDT => 1
  | Peripheral.CLKOUT => 2
  | Peripheral.SYSTICK => 1

/-- The shift of the macro of a peripheral. -/
def Peripheral.shift : Peripheral → Nat
  | Peripheral.CT16B0 => 0
  | Peripheral.CT16B1 => 4
  | Peripheral.CT16B2 => 28
  | Peripheral.CT32B0 => 8
  | Peripheral.CT32B1 => 12
  | Peripheral.CT32B2 => 28
  | Peripheral.ADC => 16
  | Peripheral.SPI0 => 20
  | Peripheral.SPI1 => 24
  | Peripheral.USART0 => 0
  | Peripheral.USART1 => 4
  | Peripheral.I2C1 => 24
  | Peripheral.I2C0 => 8
  | Peripheral.I2S => 12
  | Peripheral.WDT => 20
  | Peripheral.CLKOUT => 0
  | Peripheral.SYSTICK => 16

/-- The APB prescaler register with the given index. -/
def SYS1.reg (s : SYS1) (k : Nat) : Nat :=
  match k with
  | 0 => s.APBCP0
  | 1 => s.APBCP1
  | _ => s.APBCP2

/-- The prescaler field of a peripheral, `w` bits wide, at the shift of its
macro in the register of its macro. -/
def prescalerField (w : Nat) (s : SYS1) (p : Peripheral) : Nat :=
  (s.reg p.apb >>> p.shift) % 2 ^ w

/-- A register state in which the CT16B1 prescaler field holds 1. -/
def sys1Prescaled : SYS1 :=
  { APBCP0 := 0x10, APBCP1 := 0, APBCP2 := 0 }

/-! ## Arithmetic of the prescaler -/

theorem start_psc_of_pos (q : Nat) (h1 : 1 ≤ q) (h2 : q < 2 ^ 32) :
    (q + 2 ^ 32 - 1) % 2 ^ 32 = q - 1 := by
  have h : q + 2 ^ 32 - 1 = (q - 1) + 2 ^ 32 := by omega
  rw [h, Nat.add_mod_right]
  exact Nat.mod_eq_of_lt (by omega)

theorem start_psc_fits (q : Nat) (h2 : q < 2 ^ 32)
    (h : (q + 2 ^ 32 - 1) % 2 ^ 32 ≤ 0xFFFF) : 1 ≤ q ∧ q ≤ 0x10000 := by
  rcases Nat.eq_zero_or_pos q with h0 | h0
  · subst h0
    norm_num at h
  · rw [start_psc_of_pos q h0 h2] at h
    omega

theorem start_activate_config (K : HalDefs) (s : Sys) :
    (start_activate K s).pwmp.config = s.pwmp.config := by
  unfold start_activate
  split
  · split <;> [split; skip] <;> rfl
  · rfl

theorem start_activate_clock (K : HalDefs) (s : Sys) :
    (start_activate K s).pwmp.clock =
      if s.pwmp.state = pwmstate_t.PWM_STOP ∧ K.SN32_PWM_USE_CT16B1 = true ∧
          s.pwmp.isPWMD1 = true
      then s.hw.SystemCoreClock else s.pwmp.clock := by
  unfold start_activate
  by_cases hst : s.pwmp.state = pwmstate_t.PWM_STOP
  · cases huse : K.SN32_PWM_USE_CT16B1 <;> cases hd : s.pwmp.isPWMD1 <;>
      cases hisr : K.SN32_CT16B1_SUPPRESS_ISR <;>
      simp [hst, Sys.write, CT16B1_Init, CT16B1_Reset, nvicEnableVector]
  · simp [hst, Sys.write]

theorem start_assert_of_exact (clock frequency : Nat) (h32 : clock < 2 ^ 32)
    (hdiv : clock % frequency = 0)
    (hfit : (clock / frequency + 2 ^ 32 - 1) % 2 ^ 32 ≤ 0xFFFF) :
    start_assert clock frequency = true := by
  have hq : clock / frequency < 2 ^ 32 := lt_of_le_of_lt (Nat.div_le_self _ _) h32
  obtain ⟨h1, h3⟩ := start_psc_fits _ hq hfit
  have hpsc : start_psc clock frequency = clock / frequency - 1 :=
    start_psc_of_pos _ h1 hq
  have hmul : (clock / frequency - 1 + 1) * frequency = clock := by
    rw [Nat.sub_add_cancel h1]
    exact Nat.div_mul_cancel (Nat.dvd_of_mod_eq_zero hdiv)
  unfold start_assert
  rw [hpsc, hmul, Nat.mod_eq_of_lt h32]
  simp
  omega

theorem start_assert_of_inexact (clock frequency : Nat) (h32 : clock < 2 ^ 32)
    (hbad : clock % frequency ≠ 0 ∨ 0xFFFF < (clock / frequency + 2 ^ 32 - 1) % 2 ^ 32) :
    start_assert clock frequency = false := by
  have hq : clock / frequency < 2 ^ 32 := lt_of_le_of_lt (Nat.div_le_self _ _) h32
  unfold start_assert start_psc
  rcases hbad with hrem | hbig
  · by_cases hfit : (clock / frequency + 2 ^ 32 - 1) % 2 ^ 32 ≤ 0xFFFF
    · obtain ⟨h1, _⟩ := start_psc_fits _ hq hfit
      rw [start_psc_of_pos _ h1 hq, Nat.sub_add_cancel h1]
      have hle : clock / frequency * frequency ≤ clock := Nat.div_mul_le_self _ _
      have hsum : clock / frequency * frequency + clock % frequency = clock :=
        Nat.div_add_mod' clock frequency
      rw [Nat.mod_eq_of_lt (lt_of_le_of_lt hle h32)]
      have hne : clock / frequency * frequency ≠ clock := by omega
      rw [decide_eq_false hne, Bool.and_false]
    · rw [decide_eq_false hfit, Bool.false_and]
  · have hnot : ¬ (clock / frequency + 2 ^ 32 - 1) % 2 ^ 32 ≤ 0xFFFF := by omega
    rw [decide_eq_false hnot, Bool.false_and]

theorem start_configure_PRE (K : HalDefs) (s : Sys) :
    (start_configure K s).hw.regs Reg.PRE
      = start_psc s.pwmp.clock s.pwmp.config.frequency := by
  simp [start_configure, Sys.write, Sys.read]

theorem start_configure_wrote_PRE (K : HalDefs) (s : Sys) :
    Op.wr Reg.PRE (start_psc s.pwmp.clock s.pwmp.config.frequency)
      ∈ (start_configure K s).trace := by
  simp [start_configure, Sys.write, Sys.read]

/-! ## C1, C2: the prescaler and the frequency assertion -/

/-- C1: for a 32-bit operating clock and a frequency with `frequency > 0`,
`clock % frequency == 0` and `clock / frequency - 1 <= 0xFFFF` (the
subtraction in `uint32_t` arithmetic, as the driver computes it),
`pwm_lld_start` passes the "invalid frequency" assertion and returns, the
prescaler register `PRE` holds `clock / frequency - 1`, and that is the value
the driver wrote to it.  `clock` is the operating clock after the latch of the
first part of the function. -/
theorem pwm_lld_start_prescaler (K : HalDefs) (s : Sys) (clock frequency : Nat)
    (hclock : (start_activate K s).pwmp.clock = clock)
    (hfrequency : s.pwmp.config.frequency = frequency)
    (h32 : clock < 2 ^ 32) (_hf32 : frequency < 2 ^ 32) (hpos : 0 < frequency)
    (hdiv : clock % frequency = 0)
    (hfit : (clock / frequency + 2 ^ 32 - 1) % 2 ^ 32 ≤ 0xFFFF) :
    start_assert clock frequency = true ∧
    ∃ s', pwm_lld_start K s = Except.ok s' ∧
      s'.hw.regs Reg.PRE = clock / frequency - 1 ∧
      Op.wr Reg.PRE (clock / frequency - 1) ∈ s'.trace ∧
      s'.pwmp.clock = clock := by
  have hassert := start_assert_of_exact clock frequency h32 hdiv hfit
  have hq : clock / frequency < 2 ^ 32 := lt_of_le_of_lt (Nat.div_le_self _ _) h32
  obtain ⟨h1, _⟩ := start_psc_fits _ hq hfit
  have hpsc : start_psc clock frequency = clock / frequency - 1 :=
    start_psc_of_pos _ h1 hq
  have hcfg := start_activate_config K s
  refine ⟨hassert, start_configure K (start_activate K s), ?_, ?_, ?_, ?_⟩
  · unfold pwm_lld_start
    simp only [hcfg, hfrequency, hclock, hassert]
    rw [if_neg (by omega)]
    simp
  · rw [← hpsc, ← hclock, ← hfrequency, ← hcfg]
    exact start_configure_PRE K _
  · rw [← hpsc, ← hclock, ← hfrequency, ← hcfg]
    exact start_configure_wrote_PRE K _
  · rw [← hclock]
    rfl

/-- Witness for C1: the stopped driver at 48 MHz asked for 1 MHz gets the
prescaler 47. -/
theorem pwm_lld_start_prescaler_witness :
    start_assert 48000000 1000000 = true ∧
    ∃ s', pwm_lld_start sn32 sysStopped = Except.ok s' ∧
      s'.hw.regs Reg.PRE = 48000000 / 1000000 - 1 ∧
      Op.wr Reg.PRE (48000000 / 1000000 - 1) ∈ s'.trace ∧
      s'.pwmp.clock = 48000000 :=
  pwm_lld_start_prescaler sn32 sysStopped 48000000 1000000 rfl rfl
    (by norm_num) (by norm_num) (by norm_num) (by norm_num) (by norm_num)

/-- C2: for a 32-bit operating clock and a non-zero frequency that break
either requirement (the frequency does not divide the clock, or
`clock / frequency - 1` in `uint32_t` arithmetic exceeds `0xFFFF`, which
includes the wrap to `0xFFFFFFFF` when the frequency exceeds the clock), the
"invalid frequency" assertion of `pwm_lld_start` fails. -/
theorem pwm_lld_start_invalid_frequency (K : HalDefs) (s : Sys) (clock frequency : Nat)
    (hclock : (start_activate K s).pwmp.clock = clock)
    (hfrequency : s.pwmp.config.frequency = frequency)
    (h32 : clock < 2 ^ 32) (_hf32 : frequency < 2 ^ 32) (hne : frequency ≠ 0)
    (hbad : clock % frequency ≠ 0 ∨ 0xFFFF < (clock / frequency + 2 ^ 32 - 1) % 2 ^ 32) :
    start_assert clock frequency = false ∧
    pwm_lld_start K s = Except.error (Fault.assertion "invalid frequency") := by
  have hassert := start_assert_of_inexact clock frequency h32 hbad
  have hcfg := start_activate_config K s
  refine ⟨hassert, ?_⟩
  unfold pwm_lld_start
  simp only [hcfg, hfrequency, hclock, hassert]
  rw [if_neg hne]
  simp

/-- Witness for C2: 48 MHz and a requested 7 MHz (not a divisor). -/
theorem pwm_lld_start_invalid_frequency_witness :
    start_assert 48000000 7000000 = false ∧
    pwm_lld_start sn32
        (sysOf pwmstate_t.PWM_STOP
          { frequency := 7000000, period := 1000, callback := none, channels := fun _ => chan 0 })
      = Except.error (Fault.assertion "invalid frequency") :=
  pwm_lld_start_invalid_frequency sn32 _ 48000000 7000000 rfl rfl
    (by norm_num) (by norm_num) (by norm_num) (Or.inl (by norm_num))

/-! ## C3, C4: the mode-control registers after `pwm_lld_start` -/

theorem start_configure_PWMCTRL (K : HalDefs) (s : Sys) :
    (start_configure K s).hw.regs Reg.PWMCTRL = start_pwmctrl2 K s.pwmp.config := by
  simp [start_configure, Sys.write, Sys.read]

theorem start_configure_PWMCTRL2 (K : HalDefs) (s : Sys) :
    (start_configure K s).hw.regs Reg.PWMCTRL2 = s.hw.regs Reg.PWMCTRL2 := by
  simp [start_configure, Sys.write, Sys.read]

/-- C3 (the code at the failing input): the stopped driver is started with
channel 0 active high and every other channel disabled.  The switch blocks
compute `pwmctrl = 0b10`, but `PWMCTRL` is stored twice, last with `pwmctrl2`,
so after the call it holds 0 and the field of channel 0 reads `0b00`. -/
theorem pwm_lld_start_PWMCTRL_active_high0 :
    ∃ s', pwm_lld_start sn32 sysActiveHigh0 = Except.ok s' ∧
      start_pwmctrl sn32 sysActiveHigh0.pwmp.config = 2 ∧
      s'.trace.filter (fun o => match o with
        | Op.wr Reg.PWMCTRL _ => true
        | _ => false)
        = [Op.wr Reg.PWMCTRL 1, Op.wr Reg.PWMCTRL 2, Op.wr Reg.PWMCTRL 0] ∧
      s'.hw.regs Reg.PWMCTRL = 0 ∧
      modeField (s'.hw.regs Reg.PWMCTRL) 0 = 0 :=
  ⟨start_configure sn32 (start_activate sn32 sysActiveHigh0), rfl, rfl, rfl, rfl, rfl⟩

/-- C4 (the code at the failing input): the stopped driver is started with
channel 16 active low and every other channel disabled.  The switch blocks
compute `pwmctrl2 = 0b11`, but that value is stored to `PWMCTRL`; `PWMCTRL2`
keeps the 1 written in the first part of the function, so the field of
channel 16 reads `0b01`. -/
theorem pwm_lld_start_PWMCTRL2_active_low16 :
    ∃ s', pwm_lld_start sn32 sysActiveLow16 = Except.ok s' ∧
      start_pwmctrl2 sn32 sysActiveLow16.pwmp.config = 3 ∧
      s'.trace.filter (fun o => match o with
        | Op.wr Reg.PWMCTRL2 _ => true
        | _ => false)
        = [Op.wr Reg.PWMCTRL2 1] ∧
      s'.hw.regs Reg.PWMCTRL2 = 1 ∧
      modeField (s'.hw.regs Reg.PWMCTRL2) (16 - 16) = 1 ∧
      s'.hw.regs Reg.PWMCTRL = 3 :=
  ⟨start_configure sn32 (start_activate sn32 sysActiveLow16), rfl, rfl, rfl, rfl, rfl, rfl⟩

/-! ## C5: callback dispatch of `pwm_lld_serve_interrupt` -/

theorem and_two_pow_ne_zero (n i : Nat) : n &&& 2 ^ i ≠ 0 ↔ n.testBit i = true := by
  rw [Nat.and_two_pow]
  cases n.testBit i <;> simp

theorem serve_fold (K : HalDefs) (ris : Nat) (l : List Nat) (s : Sys) :
    l.foldl (serve_channel K ris) s =
      { pwmp := s.pwmp
        hw := runCallbacks s.pwmp.config
          (l.filter (fun i => decide (ris &&& K.mskCT16_MRnIF i ≠ 0) &&
            ((s.pwmp.config.channels i).callback).isSome)) s.hw
        trace := s.trace ++
          (l.filter (fun i => decide (ris &&& K.mskCT16_MRnIF i ≠ 0) &&
            ((s.pwmp.config.channels i).callback).isSome)).map Op.channelCallback } := by
  induction l generalizing s with
  | nil => simp [runCallbacks]
  | cons i l ih =>
    rw [List.foldl_cons, ih]
    by_cases hbit : ris &&& K.mskCT16_MRnIF i = 0
    · simp [serve_channel, hbit, List.filter_cons]
    · cases hcb : (s.pwmp.config.channels i).callback with
      | none => simp [serve_channel, hbit, hcb, List.filter_cons]
      | some cb => simp [serve_channel, hbit, hcb, List.filter_cons, runCallbacks]

theorem filter_status_bits (K : HalDefs) (ris : Nat) (cfg : PWMConfig)
    (hmask : ∀ i, i < 24 → K.mskCT16_MRnIF i = 2 ^ i) :
    (List.range 24).filter (fun i => decide (ris &&& K.mskCT16_MRnIF i ≠ 0) &&
        ((cfg.channels i).callback).isSome)
      = dueChannels ris cfg := by
  unfold dueChannels
  apply List.filter_congr
  intro i hi
  rw [List.mem_range] at hi
  rw [hmask i hi]
  have hb : decide (ris &&& 2 ^ i ≠ 0) = ris.testBit i := by
    cases h : ris.testBit i
    · exact decide_eq_false (by rw [and_two_pow_ne_zero, h]; simp)
    · exact decide_eq_true (by rw [and_two_pow_ne_zero, h])
  rw [hb]

theorem callbackCalls_append (a b : List Op) :
    callbackCalls (a ++ b) = callbackCalls a ++ callbackCalls b := by
  simp [callbackCalls, List.filterMap_append]

theorem callbackCalls_map (l : List Nat) :
    callbackCalls (l.map Op.channelCallback) = l := by
  induction l with
  | nil => rfl
  | cons a l ih =>
    simp only [callbackCalls, List.map_cons, List.filterMap_cons] at ih ⊢
    rw [ih]

/-- C5: with no driver-level callback, for every status value read at entry
and every table of channel callbacks, `pwm_lld_serve_interrupt` reads `RIS`
once, then invokes exactly the callbacks of `dueChannels` (the ascending
list of channels 0..23 whose status bit is set at entry and whose callback is
not `NULL`), each once and in that order, on the driver's hardware, and
finally reads `IC`.  The callbacks are arbitrary functions of the hardware
state, so the list is fixed by the entry snapshot even when a callback
changes the status register. -/
theorem pwm_lld_serve_interrupt_callbacks (K : HalDefs) (s : Sys)
    (hmask : ∀ i, i < 24 → K.mskCT16_MRnIF i = 2 ^ i)
    (htop : s.pwmp.config.callback = none) :
    (pwm_lld_serve_interrupt K s).trace
        = s.trace ++ [Op.rd Reg.RIS]
          ++ (dueChannels (s.hw.regs Reg.RIS) s.pwmp.config).map Op.channelCallback
          ++ [Op.rd Reg.IC] ∧
      callbackCalls (pwm_lld_serve_interrupt K s).trace
        = callbackCalls s.trace ++ dueChannels (s.hw.regs Reg.RIS) s.pwmp.config ∧
      (pwm_lld_serve_interrupt K s).hw
        = runCallbacks s.pwmp.config (dueChannels (s.hw.regs Reg.RIS) s.pwmp.config) s.hw := by
  have hfold := serve_fold K (s.hw.regs Reg.RIS) (List.range 24) (s.read Reg.RIS)
  have hread : (s.read Reg.RIS).pwmp = s.pwmp := rfl
  rw [hread, filter_status_bits K _ _ hmask] at hfold
  have htrace : (pwm_lld_serve_interrupt K s).trace
        = s.trace ++ [Op.rd Reg.RIS]
          ++ (dueChannels (s.hw.regs Reg.RIS) s.pwmp.config).map Op.channelCallback
          ++ [Op.rd Reg.IC] := by
    unfold pwm_lld_serve_interrupt
    simp only [hfold]
    simp only [Sys.read, htop]
    split <;> rfl
  refine ⟨htrace, ?_, ?_⟩
  · rw [htrace, callbackCalls_append, callbackCalls_append, callbackCalls_append,
      callbackCalls_map]
    simp [callbackCalls]
  · unfold pwm_lld_serve_interrupt
    simp only [hfold]
    simp only [Sys.read, htop]
    split <;> rfl

/-- Witness for C5: status bits 2, 5 and 9 set, callbacks on channels 5 and 9
(each clearing the status register): the callbacks run are 5, then 9. -/
theorem pwm_lld_serve_interrupt_callbacks_witness :
    callbackCalls (pwm_lld_serve_interrupt sn32 sysIrq259).trace = [5, 9] :=
  (pwm_lld_serve_interrupt_callbacks sn32 sysIrq259 (fun _ _ => rfl) rfl).2.1.trans
    (by decide)

/-! ## C6 - C8: channel enable and disable -/

/-- C6 (the code, for every state, channel and width):
`pwm_lld_enable_channel(pwmp, c, w)` is the single store of `w` to the member
`MRchannel`.  It does not use `c`: the match register of channel `c` keeps the
value it had before the call, and the call does the same for every channel
argument. -/
theorem pwm_lld_enable_channel_ignores_channel (s : Sys) (c w : Nat) :
    (pwm_lld_enable_channel s c w).hw.regs (Reg.MR c) = s.hw.regs (Reg.MR c) ∧
      (pwm_lld_enable_channel s c w).hw.regs Reg.MRchannel = w ∧
      (pwm_lld_enable_channel s c w).trace = s.trace ++ [Op.wr Reg.MRchannel w] ∧
      (∀ d, pwm_lld_enable_channel s d w = pwm_lld_enable_channel s c w) := by
  refine ⟨?_, ?_, ?_, fun _ => rfl⟩ <;> simp [pwm_lld_enable_channel, Sys.write]

theorem pwm_lld_enable_channel_sysRunning :
    sysRunning.hw.regs (Reg.MR 23) = 500 ∧
      (pwm_lld_enable_channel sysRunning 23 1000).hw.regs (Reg.MR 23) = 500 :=
  ⟨rfl, rfl⟩

theorem pwm_lld_disable_channel_match (K : HalDefs) (s : Sys) (c d : Nat) :
    (pwm_lld_disable_channel K s c).hw.regs Reg.MRchannel = 0 ∧
      (pwm_lld_disable_channel K s c).hw.regs (Reg.MR d) = s.hw.regs (Reg.MR d) := by
  constructor <;> simp [pwm_lld_disable_channel, Sys.write, Sys.read]

theorem pwm_lld_disable_channel_PWMIOENB (K : HalDefs) (s : Sys) (c : Nat) :
    (pwm_lld_disable_channel K s c).hw.regs Reg.PWMIOENB
      = s.hw.regs Reg.PWMIOENB ||| K.mskCT16_PWMchannelIOEN_DIS := by
  simp [pwm_lld_disable_channel, Sys.write, Sys.read]

/-- C7 (the code, for every value of the missing mask): the store
`PWMIOENB |= mskCT16_PWMchannelIOEN_DIS` of `pwm_lld_disable_channel` cannot
clear a bit.  Whatever the mask is, a bit of `PWMIOENB` that is set before the
call, the output-enable bit of the disabled channel included, is still set
after it. -/
theorem pwm_lld_disable_channel_keeps_enable (K : HalDefs) (s : Sys) (c b : Nat)
    (hset : (s.hw.regs Reg.PWMIOENB).testBit b = true) :
    ((pwm_lld_disable_channel K s c).hw.regs Reg.PWMIOENB).testBit b = true := by
  rw [pwm_lld_disable_channel_PWMIOENB, Nat.testBit_or, hset, Bool.true_or]

theorem pwm_lld_start_sysStopped :
    pwm_lld_start sn32 sysStopped = Except.ok sysStarted ∧
      sysStarted.hw.regs Reg.PWMIOENB = 1 :=
  ⟨rfl, rfl⟩

/-- Witness for C7: the driver just started by `pwm_lld_start` has
`PWMIOENB = 1`; after `pwm_lld_disable_channel(pwmp, 0)` bit 0, the
output-enable bit of channel 0, is still set. -/
theorem pwm_lld_disable_channel_keeps_enable_witness :
    ((pwm_lld_disable_channel sn32 sysStarted 0).hw.regs Reg.PWMIOENB).testBit 0 = true :=
  pwm_lld_disable_channel_keeps_enable sn32 sysStarted 0 0 (by decide)

/-- C8: for distinct channels `c` and `d` in 0..23, when the mask
`mskCT16_PWMchannelIOEN_DIS` has no bit at the position of channel `d`,
`pwm_lld_disable_channel(pwmp, c)` leaves the match register of channel `d`,
the output-enable bit of channel `d` and both mode-control registers (hence
the mode field of channel `d`) unchanged. -/
theorem pwm_lld_disable_channel_frame (K : HalDefs) (s : Sys) (c d : Nat)
    (_hc : c < 24) (_hd : d < 24) (_hcd : c ≠ d)
    (hmask : K.mskCT16_PWMchannelIOEN_DIS.testBit d = false) :
    (pwm_lld_disable_channel K s c).hw.regs (Reg.MR d) = s.hw.regs (Reg.MR d) ∧
      ((pwm_lld_disable_channel K s c).hw.regs Reg.PWMIOENB).testBit d
        = (s.hw.regs Reg.PWMIOENB).testBit d ∧
      (pwm_lld_disable_channel K s c).hw.regs Reg.PWMCTRL = s.hw.regs Reg.PWMCTRL ∧
      (pwm_lld_disable_channel K s c).hw.regs Reg.PWMCTRL2 = s.hw.regs Reg.PWMCTRL2 := by
  refine ⟨?_, ?_, ?_, ?_⟩
  · exact (pwm_lld_disable_channel_match K s c d).2
  · rw [pwm_lld_disable_channel_PWMIOENB, Nat.testBit_or, hmask, Bool.or_false]
  · simp [pwm_lld_disable_channel, Sys.write, Sys.read]
  · simp [pwm_lld_disable_channel, Sys.write, Sys.read]

/-- Witness for C8: disabling channel 3 of the running driver leaves
channel 7 alone. -/
theorem pwm_lld_disable_channel_frame_witness :
    (pwm_lld_disable_channel sn32 sysRunning 3).hw.regs (Reg.MR 7)
        = sysRunning.hw.regs (Reg.MR 7) ∧
      ((pwm_lld_disable_channel sn32 sysRunning 3).hw.regs Reg.PWMIOENB).testBit 7
        = (sysRunning.hw.regs Reg.PWMIOENB).testBit 7 ∧
      (pwm_lld_disable_channel sn32 sysRunning 3).hw.regs Reg.PWMCTRL
        = sysRunning.hw.regs Reg.PWMCTRL ∧
      (pwm_lld_disable_channel sn32 sysRunning 3).hw.regs Reg.PWMCTRL2
        = sysRunning.hw.regs Reg.PWMCTRL2 :=
  pwm_lld_disable_channel_frame sn32 sysRunning 3 7 (by decide) (by decide) (by decide)
    (by decide)

/-! ## C9, C10: `pwm_lld_stop` -/

/-- C9: on a driver in the stopped state `pwm_lld_stop` changes nothing: the
driver object, every register, the interrupt controller and the access log
(so no register is written) are as before, and a second call equals the
first. -/
theorem pwm_lld_stop_stopped (K : HalDefs) (s : Sys)
    (hstop : s.pwmp.state = pwmstate_t.PWM_STOP) :
    pwm_lld_stop K s = s ∧
      (pwm_lld_stop K s).trace = s.trace ∧
      pwm_lld_stop K (pwm_lld_stop K s) = pwm_lld_stop K s := by
  have h : pwm_lld_stop K s = s := by
    unfold pwm_lld_stop
    rw [if_neg (by rw [hstop]; decide)]
  exact ⟨h, by rw [h], by rw [h, h]⟩

/-- Witness for C9: the stopped sample driver. -/
theorem pwm_lld_stop_stopped_witness :
    pwm_lld_stop sn32 sysStopped = sysStopped ∧
      (pwm_lld_stop sn32 sysStopped).trace = sysStopped.trace ∧
      pwm_lld_stop sn32 (pwm_lld_stop sn32 sysStopped) = pwm_lld_stop sn32 sysStopped :=
  pwm_lld_stop_stopped sn32 sysStopped rfl

/-- C10: on the driver `PWMD1` in the ready state, built for CT16B1 with its
own interrupt handler, `pwm_lld_stop` performs, in this order, the store of
`CT16_CEN_DIS` to `TMRCTRL`, the store of 1 to the interrupt-clear register
`IC`, the disabling of the CT16B1 vector and the store of `DISABLE` to the
clock-enable bit.  With `CT16_CEN_DIS` having no count-enable bit and
`DISABLE` being 0, afterwards the count-enable bit is clear, the vector is
disabled and the CT16B1 clock-enable bit is 0. -/
theorem pwm_lld_stop_ready (K : HalDefs) (s : Sys)
    (hready : s.pwmp.state = pwmstate_t.PWM_READY)
    (hd1 : s.pwmp.isPWMD1 = true)
    (huse : K.SN32_PWM_USE_CT16B1 = true)
    (hisr : K.SN32_CT16B1_SUPPRESS_ISR = false)
    (hcen : K.CT16_CEN_DIS &&& K.mskCT16_CEN_EN = 0)
    (hdis : K.DISABLE = 0) :
    (pwm_lld_stop K s).trace
        = s.trace ++ [Op.wr Reg.TMRCTRL K.CT16_CEN_DIS, Op.wr Reg.IC 1,
            Op.nvicDisableVector K.SN32_CT16B1_NUMBER, Op.wr Reg.CT16B1CLKEN 0] ∧
      (pwm_lld_stop K s).hw.regs Reg.TMRCTRL &&& K.mskCT16_CEN_EN = 0 ∧
      (pwm_lld_stop K s).hw.regs Reg.IC = 1 ∧
      (pwm_lld_stop K s).hw.nvic K.SN32_CT16B1_NUMBER = none ∧
      (pwm_lld_stop K s).hw.regs Reg.CT16B1CLKEN = 0 := by
  unfold pwm_lld_stop
  rw [if_pos hready]
  simp [Sys.write, nvicDisableVector, hd1, huse, hisr, hdis, hcen]

/-- Witness for C10: the running sample driver (counting, vector 16 enabled,
clock gate open) is stopped. -/
theorem pwm_lld_stop_ready_witness :
    (pwm_lld_stop sn32 sysRunning).trace
        = sysRunning.trace ++ [Op.wr Reg.TMRCTRL sn32.CT16_CEN_DIS, Op.wr Reg.IC 1,
            Op.nvicDisableVector sn32.SN32_CT16B1_NUMBER, Op.wr Reg.CT16B1CLKEN 0] ∧
      (pwm_lld_stop sn32 sysRunning).hw.regs Reg.TMRCTRL &&& sn32.mskCT16_CEN_EN = 0 ∧
      (pwm_lld_stop sn32 sysRunning).hw.regs Reg.IC = 1 ∧
      (pwm_lld_stop sn32 sysRunning).hw.nvic sn32.SN32_CT16B1_NUMBER = none ∧
      (pwm_lld_stop sn32 sysRunning).hw.regs Reg.CT16B1CLKEN = 0 :=
  pwm_lld_stop_ready sn32 sysRunning rfl rfl rfl rfl rfl rfl

/-! ## The access log of `pwm_lld_start` -/

theorem pwm_lld_start_ok (K : HalDefs) (s : Sys)
    (hfreq : s.pwmp.config.frequency ≠ 0)
    (hassert : start_assert (start_activate K s).pwmp.clock s.pwmp.config.frequency = true) :
    pwm_lld_start K s = Except.ok (start_configure K (start_activate K s)) := by
  unfold pwm_lld_start
  simp only [start_activate_config, hassert]
  rw [if_neg hfreq]
  simp

theorem start_activate_ready (K : HalDefs) (s : Sys)
    (h : s.pwmp.state ≠ pwmstate_t.PWM_STOP) :
    start_activate K s = (s.write Reg.TMRCTRL K.CT16_CEN_DIS).write Reg.TC 0 := by
  unfold start_activate
  rw [if_neg h]

theorem start_configure_trace (K : HalDefs) (s : Sys) :
    (start_configure K s).trace
      = s.trace ++
        [Op.wr Reg.PRE (start_psc s.pwmp.clock s.pwmp.config.frequency),
         Op.wr Reg.CT (start_period s.pwmp.period),
         Op.wr Reg.PWMCTRL (start_pwmctrl K s.pwmp.config),
         Op.wr Reg.PWMCTRL (start_pwmctrl2 K s.pwmp.config),
         Op.wr Reg.IC 1,
         Op.rd Reg.TMRCTRL,
         Op.wr Reg.TMRCTRL (s.hw.regs Reg.TMRCTRL ||| K.mskCT16_CEN_EN)] := by
  simp [start_configure, Sys.write, Sys.read]

theorem start_configure_TMRCTRL (K : HalDefs) (s : Sys) :
    (start_configure K s).hw.regs Reg.TMRCTRL
      = s.hw.regs Reg.TMRCTRL ||| K.mskCT16_CEN_EN := by
  simp [start_configure, Sys.write, Sys.read]

theorem start_configure_TC (K : HalDefs) (s : Sys) :
    (start_configure K s).hw.regs Reg.TC = s.hw.regs Reg.TC := by
  simp [start_configure, Sys.write, Sys.read]

theorem start_configure_CT (K : HalDefs) (s : Sys) :
    (start_configure K s).hw.regs Reg.CT = start_period s.pwmp.period := by
  simp [start_configure, Sys.write, Sys.read]

theorem start_configure_untouched (K : HalDefs) (s : Sys) (r : Reg)
    (h1 : r ≠ Reg.PRE) (h2 : r ≠ Reg.CT) (h3 : r ≠ Reg.PWMCTRL) (h4 : r ≠ Reg.IC)
    (h5 : r ≠ Reg.TMRCTRL) :
    (start_configure K s).hw.regs r = s.hw.regs r := by
  simp [start_configure, Sys.write, Sys.read, h1, h2, h3, h4, h5]

theorem or_and_self_right (x m : Nat) : (x ||| m) &&& m = m := by
  apply Nat.eq_of_testBit_eq
  intro i
  rw [Nat.testBit_and, Nat.testBit_or]
  cases x.testBit i <;> cases m.testBit i <;> rfl

theorem start_activate_trace (K : HalDefs) (s : Sys) :
    ∃ ops, (start_activate K s).trace = s.trace ++ ops ∧
      (s.pwmp.state = pwmstate_t.PWM_STOP → K.SN32_PWM_USE_CT16B1 = true →
        s.pwmp.isPWMD1 = true → K.SN32_CT16B1_SUPPRESS_ISR = false →
        Op.nvicEnableVector K.SN32_CT16B1_NUMBER K.SN32_PWM_CT16B1_IRQ_PRIORITY ∈ ops) := by
  unfold start_activate
  by_cases hst : s.pwmp.state = pwmstate_t.PWM_STOP
  · cases huse : K.SN32_PWM_USE_CT16B1 <;> cases hd : s.pwmp.isPWMD1 <;>
      cases hisr : K.SN32_CT16B1_SUPPRESS_ISR <;>
      simp [hst, Sys.write, CT16B1_Init, CT16B1_Reset, nvicEnableVector]
  · exact ⟨[Op.wr Reg.TMRCTRL K.CT16_CEN_DIS, Op.wr Reg.TC 0], by simp [hst, Sys.write],
      fun h => absurd h hst⟩

/-! ## C11 - C13: restarting, and the order of the stores of `pwm_lld_start` -/

/-- C11: `pwm_lld_start` on a driver in the ready state with a valid
frequency returns; its first two operations are the store of `CT16_CEN_DIS`
to `TMRCTRL` (which leaves the count-enable bit clear when `CT16_CEN_DIS`
has no count-enable bit) and the store of 0 to the counter `TC`, no later
operation stores to `TC`, and `TC` reads 0 in the state the function
returns. -/
theorem pwm_lld_start_ready_counter (K : HalDefs) (s : Sys)
    (hready : s.pwmp.state = pwmstate_t.PWM_READY)
    (hfreq : s.pwmp.config.frequency ≠ 0)
    (hassert : start_assert s.pwmp.clock s.pwmp.config.frequency = true)
    (hcen : K.CT16_CEN_DIS &&& K.mskCT16_CEN_EN = 0) :
    ∃ s', pwm_lld_start K s = Except.ok s' ∧
      s'.trace = s.trace ++
        [Op.wr Reg.TMRCTRL K.CT16_CEN_DIS,
         Op.wr Reg.TC 0,
         Op.wr Reg.PRE (start_psc s.pwmp.clock s.pwmp.config.frequency),
         Op.wr Reg.CT (start_period s.pwmp.period),
         Op.wr Reg.PWMCTRL (start_pwmctrl K s.pwmp.config),
         Op.wr Reg.PWMCTRL (start_pwmctrl2 K s.pwmp.config),
         Op.wr Reg.IC 1,
         Op.rd Reg.TMRCTRL,
         Op.wr Reg.TMRCTRL (K.CT16_CEN_DIS ||| K.mskCT16_CEN_EN)] ∧
      (s.write Reg.TMRCTRL K.CT16_CEN_DIS).hw.regs Reg.TMRCTRL &&& K.mskCT16_CEN_EN = 0 ∧
      s'.hw.regs Reg.TC = 0 := by
  have hne : s.pwmp.state ≠ pwmstate_t.PWM_STOP := by rw [hready]; decide
  have hact := start_activate_ready K s hne
  have hclk : (start_activate K s).pwmp.clock = s.pwmp.clock := by rw [hact]; rfl
  refine ⟨start_configure K (start_activate K s),
    pwm_lld_start_ok K s hfreq (by rw [hclk]; exact hassert), ?_, ?_, ?_⟩
  · rw [start_configure_trace, hact]
    simp [Sys.write]
  · simpa [Sys.write] using hcen
  · rw [start_configure_TC, hact]
    simp [Sys.write]

/-- Witness for C11: the running sample driver is started again. -/
theorem pwm_lld_start_ready_counter_witness :
    ∃ s', pwm_lld_start sn32 sysRunning = Except.ok s' ∧
      s'.trace = sysRunning.trace ++
        [Op.wr Reg.TMRCTRL sn32.CT16_CEN_DIS,
         Op.wr Reg.TC 0,
         Op.wr Reg.PRE (start_psc sysRunning.pwmp.clock sysRunning.pwmp.config.frequency),
         Op.wr Reg.CT (start_period sysRunning.pwmp.period),
         Op.wr Reg.PWMCTRL (start_pwmctrl sn32 sysRunning.pwmp.config),
         Op.wr Reg.PWMCTRL (start_pwmctrl2 sn32 sysRunning.pwmp.config),
         Op.wr Reg.IC 1,
         Op.rd Reg.TMRCTRL,
         Op.wr Reg.TMRCTRL (sn32.CT16_CEN_DIS ||| sn32.mskCT16_CEN_EN)] ∧
      (sysRunning.write Reg.TMRCTRL sn32.CT16_CEN_DIS).hw.regs Reg.TMRCTRL
        &&& sn32.mskCT16_CEN_EN = 0 ∧
      s'.hw.regs Reg.TC = 0 :=
  pwm_lld_start_ready_counter sn32 sysRunning rfl (by decide) rfl rfl

/-- C12 (the code, for every ready driver): `pwm_lld_start` on a driver in
the ready state with a valid frequency returns with every match register and
both output-enable registers (`PWMIOENB`, `PWMENB`) exactly as they were: a
channel that was enabled with a non-zero width is still enabled with that
width. -/
theorem pwm_lld_start_ready_keeps_channels (K : HalDefs) (s : Sys) (c : Nat)
    (hready : s.pwmp.state = pwmstate_t.PWM_READY)
    (hfreq : s.pwmp.config.frequency ≠ 0)
    (hassert : start_assert s.pwmp.clock s.pwmp.config.frequency = true) :
    ∃ s', pwm_lld_start K s = Except.ok s' ∧
      s'.hw.regs (Reg.MR c) = s.hw.regs (Reg.MR c) ∧
      s'.hw.regs Reg.PWMIOENB = s.hw.regs Reg.PWMIOENB ∧
      s'.hw.regs Reg.PWMENB = s.hw.regs Reg.PWMENB := by
  have hne : s.pwmp.state ≠ pwmstate_t.PWM_STOP := by rw [hready]; decide
  have hact := start_activate_ready K s hne
  have hclk : (start_activate K s).pwmp.clock = s.pwmp.clock := by rw [hact]; rfl
  refine ⟨start_configure K (start_activate K s),
    pwm_lld_start_ok K s hfreq (by rw [hclk]; exact hassert), ?_, ?_, ?_⟩
  · rw [start_configure_untouched K _ _ (by simp) (by simp) (by simp) (by simp) (by simp), hact]
    simp [Sys.write]
  · rw [start_configure_untouched K _ _ (by simp) (by simp) (by simp) (by simp) (by simp), hact]
    simp [Sys.write]
  · rw [start_configure_untouched K _ _ (by simp) (by simp) (by simp) (by simp) (by simp), hact]
    simp [Sys.write]

/-- Witness for C12: channel 0 of the started driver was enabled with width
500 and its output-enable bit is set; after a second `pwm_lld_start` the
width is still 500 and the bit is still set. -/
theorem pwm_lld_start_ready_keeps_channels_witness :
    ∃ s', pwm_lld_start sn32 sysEnabled0 = Except.ok s' ∧
      s'.hw.regs (Reg.MR 0) = 500 ∧
      s'.hw.regs Reg.PWMIOENB = 1 ∧
      s'.hw.regs Reg.PWMENB = 1 :=
  pwm_lld_start_ready_keeps_channels sn32 sysEnabled0 0 rfl (by decide) rfl

theorem start_activate_trace_exact (K : HalDefs) (s : Sys) :
    (start_activate K s).trace = s.trace ++
      (if s.pwmp.state = pwmstate_t.PWM_STOP then
        (if K.SN32_PWM_USE_CT16B1 = true ∧ s.pwmp.isPWMD1 = true then
          [Op.CT16B1_Init, Op.CT16B1_Reset] ++
            (if K.SN32_CT16B1_SUPPRESS_ISR = true then []
             else [Op.nvicEnableVector K.SN32_CT16B1_NUMBER K.SN32_PWM_CT16B1_IRQ_PRIORITY])
         else []) ++
        [Op.wr Reg.PWMCTRL 1, Op.wr Reg.PWMCTRL2 1, Op.wr Reg.PWMENB 1, Op.wr Reg.PWMIOENB 1]
       else [Op.wr Reg.TMRCTRL K.CT16_CEN_DIS, Op.wr Reg.TC 0]) := by
  unfold start_activate
  by_cases hst : s.pwmp.state = pwmstate_t.PWM_STOP
  · cases huse : K.SN32_PWM_USE_CT16B1 <;> cases hd : s.pwmp.isPWMD1 <;>
      cases hisr : K.SN32_CT16B1_SUPPRESS_ISR <;>
      simp [hst, Sys.write, CT16B1_Init, CT16B1_Reset, nvicEnableVector]
  · simp [hst, Sys.write]

theorem start_activate_TMRCTRL (K : HalDefs) (s : Sys) :
    (start_activate K s).hw.regs Reg.TMRCTRL
      = if s.pwmp.state = pwmstate_t.PWM_STOP then s.hw.regs Reg.TMRCTRL
        else K.CT16_CEN_DIS := by
  unfold start_activate
  by_cases hst : s.pwmp.state = pwmstate_t.PWM_STOP
  · cases huse : K.SN32_PWM_USE_CT16B1 <;> cases hd : s.pwmp.isPWMD1 <;>
      cases hisr : K.SN32_CT16B1_SUPPRESS_ISR <;>
      simp [hst, Sys.write, CT16B1_Init, CT16B1_Reset, nvicEnableVector]
  · simp [hst, Sys.write]

theorem start_activate_period (K : HalDefs) (s : Sys) :
    (start_activate K s).pwmp.period = s.pwmp.period := by
  unfold start_activate
  split
  · split <;> [split; skip] <;> rfl
  · rfl

/-- C13: whenever `pwm_lld_start` returns (stopped or ready driver), the
operations it performed are exactly the list `ops` spelled out below followed
by one final store to `TMRCTRL`, whose value `v` has the count-enable bits
set and is what `TMRCTRL` holds on return.  In `ops` the first part of the
function comes first (for a stopped driver the clock and reset calls, the
enabling of the interrupt vector and the four stores of 1; for a ready driver
the stores `TMRCTRL = CT16_CEN_DIS` and `TC = 0`), then the stores to `PRE`,
`CT`, `PWMCTRL` (twice) and `IC = 1` and the read of `TMRCTRL`.  So the store
`IC = 1` is in `ops`; the interrupt vector is enabled in `ops` exactly for
the stopped driver `PWMD1` of a CT16B1 build with its own handler; and, with
`CT16_CEN_DIS` having no count-enable bit, no store to `TMRCTRL` in `ops`
sets a count-enable bit: the final store is the only one that does. -/
theorem pwm_lld_start_count_enable_last (K : HalDefs) (s : Sys)
    (hfreq : s.pwmp.config.frequency ≠ 0)
    (hassert : start_assert (start_activate K s).pwmp.clock s.pwmp.config.frequency = true)
    (hcen : K.CT16_CEN_DIS &&& K.mskCT16_CEN_EN = 0) :
    ∃ s' ops v, pwm_lld_start K s = Except.ok s' ∧
      s'.trace = s.trace ++ ops ++ [Op.wr Reg.TMRCTRL v] ∧
      v &&& K.mskCT16_CEN_EN = K.mskCT16_CEN_EN ∧
      s'.hw.regs Reg.TMRCTRL = v ∧
      Op.wr Reg.IC 1 ∈ ops ∧
      (s.pwmp.state = pwmstate_t.PWM_STOP → K.SN32_PWM_USE_CT16B1 = true →
        s.pwmp.isPWMD1 = true → K.SN32_CT16B1_SUPPRESS_ISR = false →
        Op.nvicEnableVector K.SN32_CT16B1_NUMBER K.SN32_PWM_CT16B1_IRQ_PRIORITY ∈ ops) ∧
      ops =
        (if s.pwmp.state = pwmstate_t.PWM_STOP then
          (if K.SN32_PWM_USE_CT16B1 = true ∧ s.pwmp.isPWMD1 = true then
            [Op.CT16B1_Init, Op.CT16B1_Reset] ++
              (if K.SN32_CT16B1_SUPPRESS_ISR = true then []
               else [Op.nvicEnableVector K.SN32_CT16B1_NUMBER
                      K.SN32_PWM_CT16B1_IRQ_PRIORITY])
           else []) ++
          [Op.wr Reg.PWMCTRL 1, Op.wr Reg.PWMCTRL2 1, Op.wr Reg.PWMENB 1,
           Op.wr Reg.PWMIOENB 1]
         else [Op.wr Reg.TMRCTRL K.CT16_CEN_DIS, Op.wr Reg.TC 0]) ++
        [Op.wr Reg.PRE (start_psc s'.pwmp.clock s.pwmp.config.frequency),
         Op.wr Reg.CT (start_period s.pwmp.period),
         Op.wr Reg.PWMCTRL (start_pwmctrl K s.pwmp.config),
         Op.wr Reg.PWMCTRL (start_pwmctrl2 K s.pwmp.config),
         Op.wr Reg.IC 1,
         Op.rd Reg.TMRCTRL] ∧
      v = (if s.pwmp.state = pwmstate_t.PWM_STOP then s.hw.regs Reg.TMRCTRL
           else K.CT16_CEN_DIS) ||| K.mskCT16_CEN_EN ∧
      (∀ u, Op.wr Reg.TMRCTRL u ∈ ops → u &&& K.mskCT16_CEN_EN = 0) ∧
      (∀ n prio, Op.nvicEnableVector n prio ∈ ops →
        s.pwmp.state = pwmstate_t.PWM_STOP ∧ K.SN32_PWM_USE_CT16B1 = true ∧
        s.pwmp.isPWMD1 = true ∧ K.SN32_CT16B1_SUPPRESS_ISR = false) := by
  have htr := start_activate_trace_exact K s
  have htm := start_activate_TMRCTRL K s
  have hcfg := start_activate_config K s
  have hper := start_activate_period K s
  have hclk : (start_configure K (start_activate K s)).pwmp.clock
      = (start_activate K s).pwmp.clock := rfl
  refine ⟨start_configure K (start_activate K s), _, _,
    pwm_lld_start_ok K s hfreq hassert, ?_, ?_, ?_, ?_, ?_, rfl, rfl, ?_, ?_⟩
  · rw [start_configure_trace, htr, htm, hcfg, hper, hclk]
    simp
  · exact or_and_self_right _ _
  · rw [start_configure_TMRCTRL, htm]
  · simp
  · intro h1 h2 h3 h4
    simp [h1, h2, h3, h4]
  · intro u hu
    by_cases hst : s.pwmp.state = pwmstate_t.PWM_STOP
    · cases huse : K.SN32_PWM_USE_CT16B1 <;> cases hd : s.pwmp.isPWMD1 <;>
        cases hisr : K.SN32_CT16B1_SUPPRESS_ISR <;>
        simp [hst, huse, hd, hisr] at hu
    · simp [hst] at hu
      rw [hu]
      exact hcen
  · intro n prio hmem
    by_cases hst : s.pwmp.state = pwmstate_t.PWM_STOP
    · cases huse : K.SN32_PWM_USE_CT16B1 <;> cases hd : s.pwmp.isPWMD1 <;>
        cases hisr : K.SN32_CT16B1_SUPPRESS_ISR <;>
        simp [hst, huse, hd, hisr] at hmem ⊢
    · simp [hst] at hmem

/-- Witness for C13: the complete log of `pwm_lld_start` on the stopped
sample driver `PWMD1`; the store that sets the count-enable bit is its last
entry. -/
theorem pwm_lld_start_count_enable_last_witness :
    ∃ s', pwm_lld_start sn32 sysStopped = Except.ok s' ∧
      s'.trace =
        [Op.CT16B1_Init, Op.CT16B1_Reset, Op.nvicEnableVector 16 3,
         Op.wr Reg.PWMCTRL 1, Op.wr Reg.PWMCTRL2 1, Op.wr Reg.PWMENB 1,
         Op.wr Reg.PWMIOENB 1, Op.wr Reg.PRE 47, Op.wr Reg.CT 999,
         Op.wr Reg.PWMCTRL 0, Op.wr Reg.PWMCTRL 0, Op.wr Reg.IC 1,
         Op.rd Reg.TMRCTRL, Op.wr Reg.TMRCTRL 1] := by
  obtain ⟨s', ops, v, hok, htr, _, _, _, _, hops, hv, _, _⟩ :=
    pwm_lld_start_count_enable_last sn32 sysStopped (by decide) rfl rfl
  refine ⟨s', hok, ?_⟩
  have hclk : s'.pwmp.clock = 48000000 := by
    have h2 : pwm_lld_start sn32 sysStopped
        = Except.ok (start_configure sn32 (start_activate sn32 sysStopped)) := rfl
    rw [h2] at hok
    injection hok with hs
    rw [← hs]
    rfl
  rw [htr, hops, hv, hclk]
  rfl

/-! ## C14: the interrupt handler writes no register -/

theorem runCallbacks_idle (cfg : PWMConfig) (l : List Nat) (h : HW)
    (hidle : ∀ i, i ∈ l → ∀ cb, (cfg.channels i).callback = some cb → ∀ x, cb x = x) :
    runCallbacks cfg l h = h := by
  induction l generalizing h with
  | nil => rfl
  | cons i l ih =>
    have hstep : runCallbacks cfg (i :: l) h
        = runCallbacks cfg l (match (cfg.channels i).callback with
            | some cb => cb h
            | none => h) := rfl
    rw [hstep]
    have hhead : (match (cfg.channels i).callback with
            | some cb => cb h
            | none => h) = h := by
      cases hcb : (cfg.channels i).callback with
      | none => rfl
      | some cb => exact hidle i (List.mem_cons_self i l) cb hcb h
    rw [hhead]
    exact ih h (fun j hj => hidle j (List.mem_cons_of_mem i hj))

/-- C14: when no callback is registered, or every registered callback leaves
the hardware as it is, `pwm_lld_serve_interrupt` returns with the hardware
state (the raw interrupt status, the interrupt-clear register and every other
register) and the driver object unchanged, and it adds no store to the access
log: every store in the log after the call was there before it.  This holds
for every value of the status register. -/
theorem pwm_lld_serve_interrupt_no_write (K : HalDefs) (s : Sys)
    (hch : ∀ i, i < 24 → ∀ cb, (s.pwmp.config.channels i).callback = some cb →
      ∀ x, cb x = x)
    (htop : ∀ cb, s.pwmp.config.callback = some cb → ∀ x, cb x = x) :
    (pwm_lld_serve_interrupt K s).hw = s.hw ∧
      (pwm_lld_serve_interrupt K s).pwmp = s.pwmp ∧
      ∀ r v, Op.wr r v ∈ (pwm_lld_serve_interrupt K s).trace → Op.wr r v ∈ s.trace := by
  have hfold := serve_fold K (s.hw.regs Reg.RIS) (List.range 24) (s.read Reg.RIS)
  have hread : (s.read Reg.RIS).pwmp = s.pwmp := rfl
  have hidle : runCallbacks s.pwmp.config
      ((List.range 24).filter (fun i => decide (s.hw.regs Reg.RIS &&& K.mskCT16_MRnIF i ≠ 0) &&
        ((s.pwmp.config.channels i).callback).isSome)) (s.read Reg.RIS).hw = s.hw := by
    apply runCallbacks_idle
    intro i hi
    exact hch i (List.mem_range.mp (List.mem_of_mem_filter hi))
  rw [hread, hidle] at hfold
  unfold pwm_lld_serve_interrupt
  simp only [hfold]
  simp only [Sys.read]
  cases hcb : s.pwmp.config.callback with
  | none =>
    split
    · refine ⟨rfl, rfl, ?_⟩
      intro r v hmem
      simpa using hmem
    · refine ⟨rfl, rfl, ?_⟩
      intro r v hmem
      simpa using hmem
  | some cb =>
    split
    · refine ⟨htop cb hcb s.hw, rfl, ?_⟩
      intro r v hmem
      simpa using hmem
    · refine ⟨rfl, rfl, ?_⟩
      intro r v hmem
      simpa using hmem

/-- Witness for C14: the running sample driver (no callbacks at all). -/
theorem pwm_lld_serve_interrupt_no_write_witness :
    (pwm_lld_serve_interrupt sn32 sysRunning).hw = sysRunning.hw ∧
      (pwm_lld_serve_interrupt sn32 sysRunning).pwmp = sysRunning.pwmp ∧
      ∀ r v, Op.wr r v ∈ (pwm_lld_serve_interrupt sn32 sysRunning).trace →
        Op.wr r v ∈ sysRunning.trace :=
  pwm_lld_serve_interrupt_no_write sn32 sysRunning
    (fun _ _ _ h => nomatch h) (fun _ h => nomatch h)

/-! ## C19, C20: the period register and the notification hooks -/

/-- C19: whenever `pwm_lld_start` returns, the period register `CT` holds
`pwmp->period - 1` in 32-bit unsigned arithmetic, for every 32-bit period:
`period - 1` for a period of at least 1 and `0xFFFFFFFF` for the period 0;
the driver stored exactly that value. -/
theorem pwm_lld_start_period (K : HalDefs) (s : Sys)
    (hfreq : s.pwmp.config.frequency ≠ 0)
    (hassert : start_assert (start_activate K s).pwmp.clock s.pwmp.config.frequency = true)
    (h32 : s.pwmp.period < 2 ^ 32) :
    ∃ s', pwm_lld_start K s = Except.ok s' ∧
      s'.hw.regs Reg.CT = (s.pwmp.period + 2 ^ 32 - 1) % 2 ^ 32 ∧
      Op.wr Reg.CT ((s.pwmp.period + 2 ^ 32 - 1) % 2 ^ 32) ∈ s'.trace ∧
      (1 ≤ s.pwmp.period → s'.hw.regs Reg.CT = s.pwmp.period - 1) ∧
      (s.pwmp.period = 0 → s'.hw.regs Reg.CT = 0xFFFFFFFF) := by
  have hper : (start_activate K s).pwmp.period = s.pwmp.period := by
    unfold start_activate
    split
    · split <;> [split; skip] <;> rfl
    · rfl
  have hct : (start_configure K (start_activate K s)).hw.regs Reg.CT
      = (s.pwmp.period + 2 ^ 32 - 1) % 2 ^ 32 := by
    rw [start_configure_CT, hper]
    rfl
  refine ⟨start_configure K (start_activate K s), pwm_lld_start_ok K s hfreq hassert,
    hct, ?_, ?_, ?_⟩
  · rw [start_configure_trace, hper]
    have hmem : Op.wr Reg.CT (start_period s.pwmp.period) ∈
        [Op.wr Reg.PRE (start_psc (start_activate K s).pwmp.clock
            (start_activate K s).pwmp.config.frequency),
          Op.wr Reg.CT (start_period s.pwmp.period),
          Op.wr Reg.PWMCTRL (start_pwmctrl K (start_activate K s).pwmp.config),
          Op.wr Reg.PWMCTRL (start_pwmctrl2 K (start_activate K s).pwmp.config),
          Op.wr Reg.IC 1,
          Op.rd Reg.TMRCTRL,
          Op.wr Reg.TMRCTRL ((start_activate K s).hw.regs Reg.TMRCTRL ||| K.mskCT16_CEN_EN)] :=
      List.mem_cons_of_mem _ (List.mem_cons_self _ _)
    exact List.mem_append_right _ hmem
  · intro h1
    rw [hct]
    exact start_psc_of_pos _ h1 h32
  · intro h0
    rw [hct, h0]
    rfl

/-- Witness for C19: the stopped sample driver has period 1000; the period
register holds 999. -/
theorem pwm_lld_start_period_witness :
    ∃ s', pwm_lld_start sn32 sysStopped = Except.ok s' ∧
      s'.hw.regs Reg.CT = (sysStopped.pwmp.period + 2 ^ 32 - 1) % 2 ^ 32 ∧
      Op.wr Reg.CT ((sysStopped.pwmp.period + 2 ^ 32 - 1) % 2 ^ 32) ∈ s'.trace ∧
      (1 ≤ sysStopped.pwmp.period → s'.hw.regs Reg.CT = sysStopped.pwmp.period - 1) ∧
      (sysStopped.pwmp.period = 0 → s'.hw.regs Reg.CT = 0xFFFFFFFF) :=
  pwm_lld_start_period sn32 sysStopped (by decide) rfl (by decide)

/-- C20: each of the four notification hooks returns the system exactly as it
received it (driver object, every register, interrupt controller and access
log), for every state and every channel argument. -/
theorem pwm_lld_notifications_noop (s : Sys) (channel : Nat) :
    pwm_lld_enable_periodic_notification s = s ∧
      pwm_lld_disable_periodic_notification s = s ∧
      pwm_lld_enable_channel_notification s channel = s ∧
      pwm_lld_disable_channel_notification s channel = s :=
  ⟨rfl, rfl, rfl, rfl⟩

/-! ## C15 - C18: `SystemCoreClockUpdate` -/

theorem AHB_prescaler_pow (n : Nat) (hn : n ≤ 9) : AHB_prescaler n = 2 ^ n := by
  interval_cases n <;> rfl

theorem SystemCoreClockUpdate_of_source (C : ClockConfig) (k n prev clk : Nat)
    (hn : n ≤ 9)
    (hsrc : clockSource C { SYSCLKST := k, AHBCP := n, SystemCoreClock := prev } = some clk) :
    SystemCoreClockUpdate C { SYSCLKST := k, AHBCP := n, SystemCoreClock := prev }
      = some { SYSCLKST := k, AHBCP := n, SystemCoreClock := clk / 2 ^ n } := by
  have hpos : AHB_prescaler n ≠ 0 := by
    rw [AHB_prescaler_pow n hn]
    exact Nat.pos_iff_ne_zero.mp (Nat.two_pow_pos n)
  unfold SystemCoreClockUpdate
  rw [hsrc]
  simp only [hpos, if_false]
  rw [AHB_prescaler_pow n hn]

theorem ehsHz_of_lt (C : ClockConfig) (h : C.EHS_FREQ * 1000000 < 2 ^ 31) :
    ehsHz C = some (C.EHS_FREQ * 1000000) := by
  unfold ehsHz
  rw [if_pos h]

theorem pllClock_eq (C : ClockConfig) (hsetup : C.SYS_CLOCK_SETUP ≠ 0)
    (hpsel : C.PLL_PSEL ≠ 0)
    (hehs : C.PLL_CLKIN ≠ 0 → C.EHS_FREQ * 1000000 < 2 ^ 31)
    (hfit : documentedCLKIN C / documentedF C.PLL_FSEL * C.PLL_MSEL < 2 ^ 32) :
    pllClock C
      = some (documentedCLKIN C / documentedF C.PLL_FSEL * C.PLL_MSEL / (2 * C.PLL_PSEL)) := by
  have hF : (if C.PLL_FSEL = 0 then 1 else 2) = documentedF C.PLL_FSEL := by
    cases hfs : C.PLL_FSEL with
    | zero => rfl
    | succ m => rfl
  unfold pllClock
  rw [if_pos hsetup]
  simp only [hF]
  rw [if_neg hpsel]
  by_cases hin : C.PLL_CLKIN = 0
  · have hclk : documentedCLKIN C = __IHRC_FREQ := by
      unfold documentedCLKIN __IHRC_FREQ
      rw [if_pos hin]
    rw [if_pos hin, ← hclk, Nat.mod_eq_of_lt hfit, Nat.div_div_eq_div_mul,
      Nat.mul_comm C.PLL_PSEL 2]
  · have hclk : documentedCLKIN C = C.EHS_FREQ * 1000000 := by
      unfold documentedCLKIN
      rw [if_neg hin]
    rw [if_neg hin, ehsHz_of_lt C (hehs hin)]
    simp only []
    rw [← hclk, Nat.mod_eq_of_lt hfit, Nat.div_div_eq_div_mul, Nat.mul_comm C.PLL_PSEL 2]

/-- C15 (counterexample): with the default build (PLL input internal 12 MHz
RC, `MSEL` 24, `PSEL` 3, `FSEL` 0), the status reporting the PLL and the AHB
prescaler register 0 (divisor 1), `SystemCoreClockUpdate` sets
`SystemCoreClock` to 48,000,000, not to 24,000,000 / 1. -/
theorem SystemCoreClockUpdate_pll_default_not_24MHz :
    SystemCoreClockUpdate defaultClockConfig
        { SYSCLKST := 4, AHBCP := 0, SystemCoreClock := 0 }
      = some { SYSCLKST := 4, AHBCP := 0, SystemCoreClock := 48000000 } ∧
    SystemCoreClockUpdate defaultClockConfig
        { SYSCLKST := 4, AHBCP := 0, SystemCoreClock := 0 }
      ≠ some { SYSCLKST := 4, AHBCP := 0, SystemCoreClock := 24000000 / AHB_prescaler 0 } := by
  decide

/-- C15 (amended): with the status reporting the PLL and the build
configuration PLL input = internal 12 MHz RC, `MSEL` = 24, `PSEL` = 3
(documented as `P` = 6), `FSEL` = 0 (`F` = 1), the PLL branch derives
12,000,000 / 1 * 24 / 6 = 48,000,000 Hz, and for every AHB prescaler value
`n` in 0..9 `SystemCoreClockUpdate` sets `SystemCoreClock` to
48,000,000 / 2^n. -/
theorem SystemCoreClockUpdate_pll_48MHz (C : ClockConfig) (n prev : Nat)
    (hsetup : C.SYS_CLOCK_SETUP ≠ 0) (hin : C.PLL_CLKIN = 0) (hm : C.PLL_MSEL = 24)
    (hp : C.PLL_PSEL = 3) (hf : C.PLL_FSEL = 0) (hn : n ≤ 9) :
    pllClock C = some 48000000 ∧
      documentedCLKIN C / documentedF C.PLL_FSEL * C.PLL_MSEL / documentedP C.PLL_PSEL
        = 48000000 ∧
      SystemCoreClockUpdate C { SYSCLKST := 4, AHBCP := n, SystemCoreClock := prev }
        = some { SYSCLKST := 4, AHBCP := n, SystemCoreClock := 48000000 / 2 ^ n } := by
  have hclk : documentedCLKIN C = 12000000 := by
    unfold documentedCLKIN
    rw [if_pos hin]
  have hpll : pllClock C = some 48000000 := by
    rw [pllClock_eq C hsetup (by rw [hp]; decide) (fun h => absurd hin h)
      (by rw [hclk, hf, hm]; decide), hclk, hf, hm, hp]
    rfl
  refine ⟨hpll, ?_, SystemCoreClockUpdate_of_source C 4 n prev 48000000 hn hpll⟩
  rw [hclk, hf, hm, hp]
  rfl

/-- Witness for C15 (amended): the default build with the AHB prescaler
register at 1. -/
theorem SystemCoreClockUpdate_pll_48MHz_witness :
    pllClock defaultClockConfig = some 48000000 ∧
      documentedCLKIN defaultClockConfig / documentedF defaultClockConfig.PLL_FSEL
          * defaultClockConfig.PLL_MSEL / documentedP defaultClockConfig.PLL_PSEL
        = 48000000 ∧
      SystemCoreClockUpdate defaultClockConfig
          { SYSCLKST := 4, AHBCP := 1, SystemCoreClock := 0 }
        = some { SYSCLKST := 4, AHBCP := 1, SystemCoreClock := 48000000 / 2 ^ 1 } :=
  SystemCoreClockUpdate_pll_48MHz defaultClockConfig 1 0 (by decide) rfl rfl rfl rfl
    (by decide)

/-- C16: for every AHB prescaler register value `n` in 0..9 and each of the
sources internal high-speed RC, internal low-speed RC, external high-speed
crystal and external low-speed crystal (status 0, 1, 2, 3),
`SystemCoreClockUpdate` sets `SystemCoreClock` to base / 2^n with base
12,000,000, 32,000, `EHS_FREQ` * 1,000,000 and 32,768; the divisors for the
register values 0..9 are 1, 2, 4, ..., 512.  The build has
`SYS_CLOCK_SETUP` on and an `EHS_FREQ` whose product fits an `int`. -/
theorem SystemCoreClockUpdate_direct_sources (C : ClockConfig) (n prev : Nat)
    (hn : n ≤ 9) (hsetup : C.SYS_CLOCK_SETUP ≠ 0)
    (hehs : C.EHS_FREQ * 1000000 < 2 ^ 31) :
    SystemCoreClockUpdate C { SYSCLKST := 0, AHBCP := n, SystemCoreClock := prev }
        = some { SYSCLKST := 0, AHBCP := n, SystemCoreClock := 12000000 / 2 ^ n } ∧
      SystemCoreClockUpdate C { SYSCLKST := 1, AHBCP := n, SystemCoreClock := prev }
        = some { SYSCLKST := 1, AHBCP := n, SystemCoreClock := 32000 / 2 ^ n } ∧
      SystemCoreClockUpdate C { SYSCLKST := 2, AHBCP := n, SystemCoreClock := prev }
        = some { SYSCLKST := 2, AHBCP := n,
                 SystemCoreClock := C.EHS_FREQ * 1000000 / 2 ^ n } ∧
      SystemCoreClockUpdate C { SYSCLKST := 3, AHBCP := n, SystemCoreClock := prev }
        = some { SYSCLKST := 3, AHBCP := n, SystemCoreClock := 32768 / 2 ^ n } ∧
      (List.range 10).map AHB_prescaler = [1, 2, 4, 8, 16, 32, 64, 128, 256, 512] := by
  refine ⟨SystemCoreClockUpdate_of_source C 0 n prev _ hn rfl,
    SystemCoreClockUpdate_of_source C 1 n prev _ hn rfl,
    SystemCoreClockUpdate_of_source C 2 n prev _ hn ?_,
    SystemCoreClockUpdate_of_source C 3 n prev _ hn rfl, rfl⟩
  show (if C.SYS_CLOCK_SETUP ≠ 0 then ehsHz C else none) = _
  rw [if_pos hsetup, ehsHz_of_lt C hehs]

/-- Witness for C16: the default build with the AHB prescaler register at 9
(divisor 512). -/
theorem SystemCoreClockUpdate_direct_sources_witness :
    SystemCoreClockUpdate defaultClockConfig
          { SYSCLKST := 0, AHBCP := 9, SystemCoreClock := 7 }
        = some { SYSCLKST := 0, AHBCP := 9, SystemCoreClock := 12000000 / 2 ^ 9 } ∧
      SystemCoreClockUpdate defaultClockConfig
          { SYSCLKST := 1, AHBCP := 9, SystemCoreClock := 7 }
        = some { SYSCLKST := 1, AHBCP := 9, SystemCoreClock := 32000 / 2 ^ 9 } ∧
      SystemCoreClockUpdate defaultClockConfig
          { SYSCLKST := 2, AHBCP := 9, SystemCoreClock := 7 }
        = some { SYSCLKST := 2, AHBCP := 9,
                 SystemCoreClock := defaultClockConfig.EHS_FREQ * 1000000 / 2 ^ 9 } ∧
      SystemCoreClockUpdate defaultClockConfig
          { SYSCLKST := 3, AHBCP := 9, SystemCoreClock := 7 }
        = some { SYSCLKST := 3, AHBCP := 9, SystemCoreClock := 32768 / 2 ^ 9 } ∧
      (List.range 10).map AHB_prescaler = [1, 2, 4, 8, 16, 32, 64, 128, 256, 512] :=
  SystemCoreClockUpdate_direct_sources defaultClockConfig 9 7 (by decide) (by decide)
    (by decide)

theorem clockSource_of_source (C : ClockConfig) (k n : Nat) (hk : k ≤ 4)
    (hsetup : C.SYS_CLOCK_SETUP ≠ 0) (hehs : C.EHS_FREQ * 1000000 < 2 ^ 31)
    (hpsel : C.PLL_PSEL ≠ 0) :
    ∃ clk, ∀ prev,
      clockSource C { SYSCLKST := k, AHBCP := n, SystemCoreClock := prev } = some clk := by
  interval_cases k
  · exact ⟨__IHRC_FREQ, fun _ => rfl⟩
  · exact ⟨__ILRC_FREQ, fun _ => rfl⟩
  · refine ⟨C.EHS_FREQ * 1000000, fun _ => ?_⟩
    show (if C.SYS_CLOCK_SETUP ≠ 0 then ehsHz C else none) = _
    rw [if_pos hsetup, ehsHz_of_lt C hehs]
  · exact ⟨__ELS_XTAL_FREQ, fun _ => rfl⟩
  · have hpll : ∃ clk, pllClock C = some clk := by
      unfold pllClock
      rw [if_pos hsetup]
      simp only []
      rw [if_neg hpsel]
      split
      · exact ⟨_, rfl⟩
      · rw [ehsHz_of_lt C hehs]
        exact ⟨_, rfl⟩
    obtain ⟨clk, hclk⟩ := hpll
    exact ⟨clk, fun _ => hclk⟩

/-- C17 (counterexample): with the status field at 5 (no case of the first
`switch`) and the AHB prescaler register 0, a run that starts from
`SystemCoreClock` = 1000 ends with 1000 and a run that starts from 2000 ends
with 2000: the result depends on the previous value. -/
theorem SystemCoreClockUpdate_status5_keeps_previous :
    SystemCoreClockUpdate defaultClockConfig
        { SYSCLKST := 5, AHBCP := 0, SystemCoreClock := 1000 }
      = some { SYSCLKST := 5, AHBCP := 0, SystemCoreClock := 1000 } ∧
    SystemCoreClockUpdate defaultClockConfig
        { SYSCLKST := 5, AHBCP := 0, SystemCoreClock := 2000 }
      = some { SYSCLKST := 5, AHBCP := 0, SystemCoreClock := 2000 } ∧
    (SystemCoreClockUpdate defaultClockConfig
        { SYSCLKST := 5, AHBCP := 0, SystemCoreClock := 1000 }).map
          (fun st => st.SystemCoreClock)
      ≠ (SystemCoreClockUpdate defaultClockConfig
        { SYSCLKST := 5, AHBCP := 0, SystemCoreClock := 2000 }).map
          (fun st => st.SystemCoreClock) := by
  decide

/-- C17 (amended): for every value 0..4 of the clock-status field (the five
sources) and every AHB prescaler value in 0..9, two runs of
`SystemCoreClockUpdate` that start from different previous values of
`SystemCoreClock` both return, with the same `SystemCoreClock`.  The build
has `SYS_CLOCK_SETUP` on, an `EHS_FREQ` whose product fits an `int` and a
non-zero `PLL_PSEL`, so that no branch is undefined. -/
theorem SystemCoreClockUpdate_registers_only (C : ClockConfig) (k n p q : Nat)
    (hk : k ≤ 4) (hn : n ≤ 9)
    (hsetup : C.SYS_CLOCK_SETUP ≠ 0) (hehs : C.EHS_FREQ * 1000000 < 2 ^ 31)
    (hpsel : C.PLL_PSEL ≠ 0) :
    ∃ clk,
      SystemCoreClockUpdate C { SYSCLKST := k, AHBCP := n, SystemCoreClock := p }
        = some { SYSCLKST := k, AHBCP := n, SystemCoreClock := clk } ∧
      SystemCoreClockUpdate C { SYSCLKST := k, AHBCP := n, SystemCoreClock := q }
        = some { SYSCLKST := k, AHBCP := n, SystemCoreClock := clk } := by
  obtain ⟨clk, hsrc⟩ := clockSource_of_source C k n hk hsetup hehs hpsel
  exact ⟨clk / 2 ^ n, SystemCoreClockUpdate_of_source C k n p clk hn (hsrc p),
    SystemCoreClockUpdate_of_source C k n q clk hn (hsrc q)⟩

/-- Witness for C17 (amended): the default build, PLL status, divisor 4,
previous values 1000 and 2000. -/
theorem SystemCoreClockUpdate_registers_only_witness :
    ∃ clk,
      SystemCoreClockUpdate defaultClockConfig
          { SYSCLKST := 4, AHBCP := 2, SystemCoreClock := 1000 }
        = some { SYSCLKST := 4, AHBCP := 2, SystemCoreClock := clk } ∧
      SystemCoreClockUpdate defaultClockConfig
          { SYSCLKST := 4, AHBCP := 2, SystemCoreClock := 2000 }
        = some { SYSCLKST := 4, AHBCP := 2, SystemCoreClock := clk } :=
  SystemCoreClockUpdate_registers_only defaultClockConfig 4 2 1000 2000 (by decide)
    (by decide) (by decide) (by decide) (by decide)

theorem documentedP_eq (PSEL : Nat) (h3 : 3 ≤ PSEL) (h7 : PSEL ≤ 7) :
    documentedP PSEL = 2 * PSEL := by
  interval_cases PSEL <;> rfl

theorem documentedF_le (FSEL : Nat) : 1 ≤ documentedF FSEL ∧ documentedF FSEL ≤ 2 := by
  cases FSEL with
  | zero => exact ⟨Nat.le_refl 1, by decide⟩
  | succ m => exact ⟨Nat.le_succ 1, Nat.le_refl 2⟩

/-- C18: for every build in the documented ranges (`MSEL` in 3..31, `PSEL` in
3..7, i.e. `P` = 6, 8, 10, 12, 14, `F` = 1 or 2, PLL input the 12 MHz
internal RC or an external crystal of 10..25 MHz) the PLL branch of
`SystemCoreClockUpdate` is defined and computes exactly
`(F_CLKIN / F * M) / P` in integer division, with `F` dividing `F_CLKIN`;
nothing overflows: the crystal product `EHS_FREQ * 1000000` is below 2^31 and
`F_CLKIN / F * M` is below 2^32. -/
theorem pllClock_documented_formula (C : ClockConfig)
    (hsetup : C.SYS_CLOCK_SETUP ≠ 0)
    (_hm3 : 3 ≤ C.PLL_MSEL) (hm31 : C.PLL_MSEL ≤ 31)
    (hp3 : 3 ≤ C.PLL_PSEL) (hp7 : C.PLL_PSEL ≤ 7)
    (hin : C.PLL_CLKIN = 0 ∨ (C.PLL_CLKIN = 1 ∧ 10 ≤ C.EHS_FREQ ∧ C.EHS_FREQ ≤ 25)) :
    pllClock C
        = some (documentedCLKIN C / documentedF C.PLL_FSEL * C.PLL_MSEL
            / documentedP C.PLL_PSEL) ∧
      documentedCLKIN C / documentedF C.PLL_FSEL * C.PLL_MSEL < 2 ^ 32 ∧
      (C.PLL_CLKIN ≠ 0 → C.EHS_FREQ * 1000000 < 2 ^ 31) ∧
      documentedF C.PLL_FSEL ∣ documentedCLKIN C ∧
      (∀ n prev, clockSource C { SYSCLKST := 4, AHBCP := n, SystemCoreClock := prev }
        = some (documentedCLKIN C / documentedF C.PLL_FSEL * C.PLL_MSEL
            / documentedP C.PLL_PSEL)) := by
  have hehs : C.PLL_CLKIN ≠ 0 → C.EHS_FREQ * 1000000 < 2 ^ 31 := by
    intro hne
    rcases hin with h0 | ⟨_, _, h25⟩
    · exact absurd h0 hne
    · have : C.EHS_FREQ * 1000000 ≤ 25 * 1000000 := Nat.mul_le_mul_right _ h25
      exact lt_of_le_of_lt this (by norm_num)
  have hclkin : documentedCLKIN C ≤ 25000000 := by
    unfold documentedCLKIN
    rcases hin with h0 | ⟨h1, _, h25⟩
    · rw [if_pos h0]
      norm_num
    · rw [if_neg (by rw [h1]; decide)]
      have : C.EHS_FREQ * 1000000 ≤ 25 * 1000000 := Nat.mul_le_mul_right _ h25
      exact le_trans this (by norm_num)
  have hfit : documentedCLKIN C / documentedF C.PLL_FSEL * C.PLL_MSEL < 2 ^ 32 := by
    have h1 : documentedCLKIN C / documentedF C.PLL_FSEL ≤ 25000000 :=
      le_trans (Nat.div_le_self _ _) hclkin
    have h2 : documentedCLKIN C / documentedF C.PLL_FSEL * C.PLL_MSEL ≤ 25000000 * 31 :=
      Nat.mul_le_mul h1 hm31
    exact lt_of_le_of_lt h2 (by norm_num)
  have hpll : pllClock C
      = some (documentedCLKIN C / documentedF C.PLL_FSEL * C.PLL_MSEL
          / documentedP C.PLL_PSEL) := by
    rw [documentedP_eq _ hp3 hp7]
    exact pllClock_eq C hsetup (by omega) hehs hfit
  have hdvd : documentedF C.PLL_FSEL ∣ documentedCLKIN C := by
    have hF : documentedF C.PLL_FSEL = 1 ∨ documentedF C.PLL_FSEL = 2 := by
      have := documentedF_le C.PLL_FSEL
      omega
    rcases hF with h | h
    · rw [h]
      exact Nat.one_dvd _
    · rw [h]
      unfold documentedCLKIN
      split
      · exact ⟨6000000, by norm_num⟩
      · exact ⟨C.EHS_FREQ * 500000, by omega⟩
  exact ⟨hpll, hfit, hehs, hdvd, fun _ _ => hpll⟩

/-- Witness for C18: an external 25 MHz crystal, `MSEL` 31, `PSEL` 7,
`FSEL` 1. -/
theorem pllClock_documented_formula_witness :
    pllClock { SYS_CLOCK_SETUP := 1, EHS_FREQ := 25, PLL_MSEL := 31, PLL_PSEL := 7,
               PLL_FSEL := 1, PLL_CLKIN := 1 }
      = some (25000000 / 2 * 31 / 14) :=
  (pllClock_documented_formula
    { SYS_CLOCK_SETUP := 1, EHS_FREQ := 25, PLL_MSEL := 31, PLL_PSEL := 7,
      PLL_FSEL := 1, PLL_CLKIN := 1 }
    (by decide) (by decide) (by decide) (by decide) (by decide)
    (Or.inr ⟨rfl, by decide, by decide⟩)).1

/-! ## C22: the fall-through switch as a lookup table -/

theorem outputSwitch_eq_table (K : HalDefs) (i mode acc : Nat)
    (hne : K.PWM_OUTPUT_ACTIVE_HIGH ≠ K.PWM_OUTPUT_ACTIVE_LOW) :
    outputSwitch K i mode acc = acc ||| modeTable K i (mode &&& K.PWM_OUTPUT_MASK) := by
  unfold outputSwitch modeTable
  by_cases hlow : mode &&& K.PWM_OUTPUT_MASK = K.PWM_OUTPUT_ACTIVE_LOW
  · have hnh : ¬ mode &&& K.PWM_OUTPUT_MASK = K.PWM_OUTPUT_ACTIVE_HIGH := by
      rw [hlow]
      exact fun h => hne h.symm
    rw [if_pos hlow, if_neg hnh, if_pos hlow, Nat.or_assoc]
  · by_cases hhigh : mode &&& K.PWM_OUTPUT_MASK = K.PWM_OUTPUT_ACTIVE_HIGH
    · rw [if_neg hlow, if_pos hhigh, if_pos hhigh]
    · rw [if_neg hlow, if_neg hhigh, if_neg hhigh, if_neg hlow, Nat.or_zero]

/-- C22: with distinct case labels, each fall-through `switch` of
`pwm_lld_start` ors into the accumulator exactly the entry of the lookup
table `modeTable` for `mode & PWM_OUTPUT_MASK`: the `MODE_2` bit of the
channel for active high, its `MODE_1` and `MODE_2` bits for active low, no bit
for any other masked value (disabled included).  Hence the contribution
depends on the mode only through `mode & PWM_OUTPUT_MASK`, and the two
register values built by the 24 switches are the folds of the table. -/
theorem pwm_lld_start_switch_is_table (K : HalDefs)
    (hne : K.PWM_OUTPUT_ACTIVE_HIGH ≠ K.PWM_OUTPUT_ACTIVE_LOW) :
    (∀ i mode acc,
      outputSwitch K i mode acc = acc ||| modeTable K i (mode &&& K.PWM_OUTPUT_MASK)) ∧
    (∀ i mode mode2 acc, mode &&& K.PWM_OUTPUT_MASK = mode2 &&& K.PWM_OUTPUT_MASK →
      outputSwitch K i mode acc = outputSwitch K i mode2 acc) ∧
    (∀ i mode acc, mode &&& K.PWM_OUTPUT_MASK = K.PWM_OUTPUT_ACTIVE_HIGH →
      outputSwitch K i mode acc = acc ||| K.CT16_PWMnMODE_2 i) ∧
    (∀ i mode acc, mode &&& K.PWM_OUTPUT_MASK = K.PWM_OUTPUT_ACTIVE_LOW →
      outputSwitch K i mode acc = acc ||| (K.CT16_PWMnMODE_1 i ||| K.CT16_PWMnMODE_2 i)) ∧
    (∀ i mode acc, mode &&& K.PWM_OUTPUT_MASK ≠ K.PWM_OUTPUT_ACTIVE_HIGH →
      mode &&& K.PWM_OUTPUT_MASK ≠ K.PWM_OUTPUT_ACTIVE_LOW →
      outputSwitch K i mode acc = acc) ∧
    (∀ cfg, start_pwmctrl K cfg = (List.range 16).foldl
      (fun acc i => acc ||| modeTable K i ((cfg.channels i).mode &&& K.PWM_OUTPUT_MASK)) 0) ∧
    (∀ cfg, start_pwmctrl2 K cfg = (List.range' 16 8).foldl
      (fun acc i => acc ||| modeTable K i ((cfg.channels i).mode &&& K.PWM_OUTPUT_MASK)) 0) := by
  have htab := fun i mode acc => outputSwitch_eq_table K i mode acc hne
  refine ⟨htab, ?_, ?_, ?_, ?_, ?_, ?_⟩
  · intro i mode mode2 acc h
    rw [htab, htab, h]
  · intro i mode acc h
    rw [htab, h, modeTable, if_pos rfl]
  · intro i mode acc h
    rw [htab, h, modeTable, if_neg (fun h2 => hne h2.symm), if_pos rfl]
  · intro i mode acc h1 h2
    rw [htab, modeTable, if_neg h1, if_neg h2, Nat.or_zero]
  · intro cfg
    unfold start_pwmctrl
    congr 1
    funext acc i
    exact htab i _ acc
  · intro cfg
    unfold start_pwmctrl2
    congr 1
    funext acc i
    exact htab i _ acc

/-- Witness for C22: with the constants of `sn32`, channel 5 contributes
`0b10` (active high), `0b11` (active low) and `0b00` (disabled) at its
field. -/
theorem pwm_lld_start_switch_is_table_witness :
    modeField (outputSwitch sn32 5 sn32.PWM_OUTPUT_ACTIVE_HIGH 0) 5 = 2 ∧
      modeField (outputSwitch sn32 5 sn32.PWM_OUTPUT_ACTIVE_LOW 0) 5 = 3 ∧
      modeField (outputSwitch sn32 5 0 0) 5 = 0 := by
  have h := (pwm_lld_start_switch_is_table sn32 (by decide)).1
  rw [h, h, h]
  decide

/-! ## C23: the operating clock latch -/

/-- C23: whenever `pwm_lld_start` returns, the prescaler register holds
`clock / frequency - 1` (32-bit) for the operating clock the driver object
has on return.  For the driver `PWMD1` of a CT16B1 build in the stopped state
that clock is the current `SystemCoreClock`; in the ready state it is the
clock the driver object already had, so the prescaler does not depend on
`SystemCoreClock`. -/
theorem pwm_lld_start_clock_latch (K : HalDefs) (s : Sys)
    (hfreq : s.pwmp.config.frequency ≠ 0)
    (hassert : start_assert (start_activate K s).pwmp.clock s.pwmp.config.frequency = true) :
    ∃ s', pwm_lld_start K s = Except.ok s' ∧
      s'.hw.regs Reg.PRE
        = (s'.pwmp.clock / s.pwmp.config.frequency + 2 ^ 32 - 1) % 2 ^ 32 ∧
      (s.pwmp.state = pwmstate_t.PWM_STOP → K.SN32_PWM_USE_CT16B1 = true →
        s.pwmp.isPWMD1 = true → s'.pwmp.clock = s.hw.SystemCoreClock) ∧
      (s.pwmp.state = pwmstate_t.PWM_READY → s'.pwmp.clock = s.pwmp.clock ∧
        s'.hw.regs Reg.PRE
          = (s.pwmp.clock / s.pwmp.config.frequency + 2 ^ 32 - 1) % 2 ^ 32) := by
  have hclk : (start_configure K (start_activate K s)).pwmp.clock
      = (start_activate K s).pwmp.clock := rfl
  have hpre : (start_configure K (start_activate K s)).hw.regs Reg.PRE
      = ((start_activate K s).pwmp.clock / s.pwmp.config.frequency + 2 ^ 32 - 1) % 2 ^ 32 := by
    rw [start_configure_PRE, start_activate_config]
    rfl
  refine ⟨start_configure K (start_activate K s), pwm_lld_start_ok K s hfreq hassert,
    ?_, ?_, ?_⟩
  · rw [hclk]
    exact hpre
  · intro hst huse hd
    rw [hclk, start_activate_clock, if_pos ⟨hst, huse, hd⟩]
  · intro hready
    have hne : ¬ (s.pwmp.state = pwmstate_t.PWM_STOP ∧ K.SN32_PWM_USE_CT16B1 = true ∧
        s.pwmp.isPWMD1 = true) := by
      rw [hready]
      exact fun h => absurd h.1 (by decide)
    have hlatch : (start_activate K s).pwmp.clock = s.pwmp.clock := by
      rw [start_activate_clock, if_neg hne]
    exact ⟨by rw [hclk, hlatch], by rw [hpre, hlatch]⟩

/-- Witness for C23: the stopped sample driver latches 48 MHz. -/
theorem pwm_lld_start_clock_latch_witness :
    ∃ s', pwm_lld_start sn32 sysStopped = Except.ok s' ∧
      s'.hw.regs Reg.PRE
        = (s'.pwmp.clock / sysStopped.pwmp.config.frequency + 2 ^ 32 - 1) % 2 ^ 32 ∧
      (sysStopped.pwmp.state = pwmstate_t.PWM_STOP → sn32.SN32_PWM_USE_CT16B1 = true →
        sysStopped.pwmp.isPWMD1 = true → s'.pwmp.clock = sysStopped.hw.SystemCoreClock) ∧
      (sysStopped.pwmp.state = pwmstate_t.PWM_READY → s'.pwmp.clock = sysStopped.pwmp.clock ∧
        s'.hw.regs Reg.PRE
          = (sysStopped.pwmp.clock / sysStopped.pwmp.config.frequency + 2 ^ 32 - 1)
              % 2 ^ 32) :=
  pwm_lld_start_clock_latch sn32 sysStopped (by decide) rfl

/-! ## C24: the assertion in wrapping and in exact arithmetic -/

/-- C24: for every 32-bit clock and non-zero frequency the condition of the
assertion, evaluated with the 32-bit wrapping prescaler and product, holds if
and only if the frequency divides the clock and `1 <= clock / frequency <=
65536`; and whenever the first conjunct `psc <= 0xFFFF` holds, the product
`(psc + 1) * frequency` is at most the clock, so it does not wrap. -/
theorem start_assert_iff_exact (clock frequency : Nat)
    (h32 : clock < 2 ^ 32) (_hne : frequency ≠ 0) :
    (start_assert clock frequency = true ↔
      frequency ∣ clock ∧ 1 ≤ clock / frequency ∧ clock / frequency ≤ 65536) ∧
    (start_psc clock frequency ≤ 0xFFFF →
      (start_psc clock frequency + 1) * frequency ≤ clock ∧
      (start_psc clock frequency + 1) * frequency < 2 ^ 32) := by
  have hq : clock / frequency < 2 ^ 32 := lt_of_le_of_lt (Nat.div_le_self _ _) h32
  have hwrap : start_psc clock frequency ≤ 0xFFFF →
      (start_psc clock frequency + 1) * frequency ≤ clock ∧
      (start_psc clock frequency + 1) * frequency < 2 ^ 32 := by
    intro hfit
    obtain ⟨h1, _⟩ := start_psc_fits _ hq hfit
    have hpsc : start_psc clock frequency = clock / frequency - 1 :=
      start_psc_of_pos _ h1 hq
    rw [hpsc, Nat.sub_add_cancel h1]
    have hle : clock / frequency * frequency ≤ clock := Nat.div_mul_le_self _ _
    exact ⟨hle, lt_of_le_of_lt hle h32⟩
  refine ⟨⟨?_, ?_⟩, hwrap⟩
  · intro hassert
    by_cases hrem : clock % frequency = 0
    · by_cases hfit : (clock / frequency + 2 ^ 32 - 1) % 2 ^ 32 ≤ 0xFFFF
      · obtain ⟨h1, h2⟩ := start_psc_fits _ hq hfit
        exact ⟨Nat.dvd_of_mod_eq_zero hrem, h1, h2⟩
      · have hfalse := start_assert_of_inexact clock frequency h32
          (Or.inr (Nat.lt_of_not_le hfit))
        rw [hassert] at hfalse
        exact absurd hfalse (by decide)
    · have hfalse := start_assert_of_inexact clock frequency h32 (Or.inl hrem)
      rw [hassert] at hfalse
      exact absurd hfalse (by decide)
  · rintro ⟨hdvd, h1, h2⟩
    apply start_assert_of_exact clock frequency h32 (Nat.mod_eq_zero_of_dvd hdvd)
    rw [start_psc_of_pos _ h1 hq]
    omega

/-- Witness for C24: 48 MHz and 1 MHz. -/
theorem start_assert_iff_exact_witness :
    (start_assert 48000000 1000000 = true ↔
      1000000 ∣ 48000000 ∧ 1 ≤ 48000000 / 1000000 ∧ 48000000 / 1000000 ≤ 65536) ∧
    (start_psc 48000000 1000000 ≤ 0xFFFF →
      (start_psc 48000000 1000000 + 1) * 1000000 ≤ 48000000 ∧
      (start_psc 48000000 1000000 + 1) * 1000000 < 2 ^ 32) :=
  start_assert_iff_exact 48000000 1000000 (by norm_num) (by norm_num)

/-! ## C25: the driver-level callback of the interrupt handler -/

/-- C25: the access log of `pwm_lld_serve_interrupt` is the read of `RIS`,
the channel callbacks of the 24 tests, the read of `IC` and then, as the
only possible further entry, one call of the driver-level callback; that call
is made exactly when the callback is not `NULL` and the bitwise AND of the
status read at entry with the value read from `IC` (after the channel
callbacks) is non-zero.  The hardware state returned is the one the channel
callbacks left, passed through the driver-level callback when it is called. -/
theorem pwm_lld_serve_interrupt_period_callback (K : HalDefs) (s : Sys) :
    (pwm_lld_serve_interrupt K s).trace
        = s.trace ++ [Op.rd Reg.RIS]
          ++ (matchedChannels K (s.hw.regs Reg.RIS) s.pwmp.config).map Op.channelCallback
          ++ [Op.rd Reg.IC]
          ++ (if s.hw.regs Reg.RIS &&&
                  (runCallbacks s.pwmp.config
                    (matchedChannels K (s.hw.regs Reg.RIS) s.pwmp.config) s.hw).regs Reg.IC ≠ 0
                ∧ s.pwmp.config.callback.isSome = true
              then [Op.periodCallback] else []) ∧
      (pwm_lld_serve_interrupt K s).hw
        = (match s.pwmp.config.callback with
            | some cb =>
              if s.hw.regs Reg.RIS &&&
                  (runCallbacks s.pwmp.config
                    (matchedChannels K (s.hw.regs Reg.RIS) s.pwmp.config) s.hw).regs Reg.IC ≠ 0
              then cb (runCallbacks s.pwmp.config
                    (matchedChannels K (s.hw.regs Reg.RIS) s.pwmp.config) s.hw)
              else runCallbacks s.pwmp.config
                    (matchedChannels K (s.hw.regs Reg.RIS) s.pwmp.config) s.hw
            | none => runCallbacks s.pwmp.config
                    (matchedChannels K (s.hw.regs Reg.RIS) s.pwmp.config) s.hw) := by
  have hfold := serve_fold K (s.hw.regs Reg.RIS) (List.range 24) (s.read Reg.RIS)
  have hread : (s.read Reg.RIS).pwmp = s.pwmp := rfl
  have hhw : (s.read Reg.RIS).hw = s.hw := rfl
  have htr : (s.read Reg.RIS).trace = s.trace ++ [Op.rd Reg.RIS] := rfl
  rw [hread, hhw, htr] at hfold
  have hm : (List.range 24).filter
      (fun i => decide (s.hw.regs Reg.RIS &&& K.mskCT16_MRnIF i ≠ 0) &&
        ((s.pwmp.config.channels i).callback).isSome)
      = matchedChannels K (s.hw.regs Reg.RIS) s.pwmp.config := rfl
  rw [hm] at hfold
  unfold pwm_lld_serve_interrupt
  simp only [hfold]
  simp only [Sys.read]
  by_cases hand : s.hw.regs Reg.RIS &&&
      (runCallbacks s.pwmp.config
        (matchedChannels K (s.hw.regs Reg.RIS) s.pwmp.config) s.hw).regs Reg.IC ≠ 0
  · cases hcb : s.pwmp.config.callback with
    | none => simp [hand]
    | some cb => simp [hand]
  · cases hcb : s.pwmp.config.callback with
    | none => simp [hand]
    | some cb => simp [hand]

/-! ## C26: the divisor of the final division -/

/-- C26: the divisor `AHB_prescaler` of the final division of
`SystemCoreClockUpdate` is non-zero if and only if the AHB prescaler register
value is in 0..9; for every register value of 10 or more (written `n + 10`)
it keeps its initial 0 and the result of the function is undefined, whatever
the clock status and the previous clock are. -/
theorem AHB_prescaler_nonzero_iff (C : ClockConfig) (k n prev : Nat) :
    (AHB_prescaler n ≠ 0 ↔ n ≤ 9) ∧
      AHB_prescaler (n + 10) = 0 ∧
      SystemCoreClockUpdate C { SYSCLKST := k, AHBCP := n + 10, SystemCoreClock := prev }
        = none := by
  have hbig : ∀ m, AHB_prescaler (m + 10) = 0 := fun _ => rfl
  refine ⟨⟨?_, ?_⟩, hbig n, ?_⟩
  · intro hnz
    by_contra hgt
    obtain ⟨m, hm⟩ : ∃ m, n = m + 10 := ⟨n - 10, by omega⟩
    rw [hm] at hnz
    exact hnz (hbig m)
  · intro hle
    rw [AHB_prescaler_pow n hle]
    exact Nat.pos_iff_ne_zero.mp (Nat.two_pow_pos n)
  · unfold SystemCoreClockUpdate
    cases clockSource C { SYSCLKST := k, AHBCP := n + 10, SystemCoreClock := prev } with
    | none => rfl
    | some clk =>
      simp only [hbig n, if_true]

/-! ## C21, C27: the prescaler macros of `sn32_sys1.h` -/

theorem sys1SelectPRE_reg (p : Peripheral) (pre : Nat) (s : SYS1) (k : Nat) (hk : k ≤ 2) :
    (sys1SelectPRE p pre s).reg k
      = if 0 < pre ∧ k = p.apb then s.reg k ||| (pre <<< p.shift) % 2 ^ 32 else s.reg k := by
  by_cases hpre : 0 < pre
  · interval_cases k <;> cases p <;>
      simp [sys1SelectPRE, sys1SelectAPB0, sys1SelectAPB1, sys1SelectAPB2, SYS1.reg,
        Peripheral.apb, Peripheral.shift, hpre]
  · have h0 : pre = 0 := by omega
    subst h0
    cases p <;> simp [sys1SelectPRE]

theorem Peripheral.apb_le (p : Peripheral) : p.apb ≤ 2 := by
  cases p <;> decide

theorem Peripheral.shift_le (p : Peripheral) : p.shift + 4 ≤ 32 := by
  cases p <;> decide

theorem Peripheral.fields_apart (p q : Peripheral) (hpq : p ≠ q) :
    p.apb ≠ q.apb ∨ p.shift + 4 ≤ q.shift ∨ q.shift + 4 ≤ p.shift := by
  cases p <;> cases q <;> first | exact absurd rfl hpq | decide

theorem shifted_fits (pre sh w : Nat) (hpre : pre < 2 ^ w) (hfit : sh + w ≤ 32) :
    (pre <<< sh) % 2 ^ 32 = pre <<< sh := by
  apply Nat.mod_eq_of_lt
  rw [Nat.shiftLeft_eq]
  have h1 : pre * 2 ^ sh < 2 ^ w * 2 ^ sh :=
    Nat.mul_lt_mul_of_pos_right hpre (Nat.two_pow_pos sh)
  have h2 : 2 ^ w * 2 ^ sh = 2 ^ (w + sh) := (Nat.pow_add 2 w sh).symm
  have h3 : 2 ^ (w + sh) ≤ 2 ^ 32 := Nat.pow_le_pow_right (by decide) (by omega)
  omega

theorem testBit_of_lt_two_pow (x w i : Nat) (hx : x < 2 ^ w) (hi : w ≤ i) :
    x.testBit i = false :=
  Nat.testBit_lt_two_pow (lt_of_lt_of_le hx (Nat.pow_le_pow_right (by decide) hi))

theorem field_after_or (reg pre sh w : Nat) (hpre : pre < 2 ^ w) :
    ((reg ||| pre <<< sh) >>> sh) % 2 ^ w = ((reg >>> sh) % 2 ^ w) ||| pre := by
  apply Nat.eq_of_testBit_eq
  intro i
  simp only [Nat.testBit_mod_two_pow, Nat.testBit_shiftRight, Nat.testBit_or,
    Nat.testBit_shiftLeft]
  have hsub : sh + i - sh = i := by omega
  have hge : decide (sh + i ≥ sh) = true := decide_eq_true (by omega)
  rw [hsub, hge, Bool.true_and]
  by_cases hi : i < w
  · simp [hi]
  · rw [testBit_of_lt_two_pow pre w i hpre (by omega)]
    simp [hi]

theorem field_other (reg pre sp sq w : Nat) (hw : w ≤ 4) (hpre : pre < 16)
    (hsep : sp + 4 ≤ sq ∨ sq + 4 ≤ sp) :
    ((reg ||| pre <<< sp) >>> sq) % 2 ^ w = (reg >>> sq) % 2 ^ w := by
  apply Nat.eq_of_testBit_eq
  intro i
  simp only [Nat.testBit_mod_two_pow, Nat.testBit_shiftRight, Nat.testBit_or,
    Nat.testBit_shiftLeft]
  by_cases hi : i < w
  · have hoff : (decide (sq + i ≥ sp) && pre.testBit (sq + i - sp)) = false := by
      rcases hsep with h | h
      · rw [testBit_of_lt_two_pow pre 4 (sq + i - sp) hpre (by omega), Bool.and_false]
      · rw [decide_eq_false (by omega), Bool.false_and]
    rw [hoff, Bool.or_false]
  · simp [hi]

/-- C21 (counterexample): with the CT16B1 prescaler field holding 1,
`sys1SelectCT16B1PRE(0)` leaves the field at 1 (not 0) and
`sys1SelectCT16B1PRE(2)` makes it 3 (not 2). -/
theorem sys1SelectCT16B1PRE_not_pre :
    prescalerField 4 (sys1SelectCT16B1PRE 0 sys1Prescaled) Peripheral.CT16B1 = 1 ∧
      prescalerField 4 (sys1SelectCT16B1PRE 0 sys1Prescaled) Peripheral.CT16B1 ≠ 0 ∧
      prescalerField 4 (sys1SelectCT16B1PRE 2 sys1Prescaled) Peripheral.CT16B1 = 3 ∧
      prescalerField 4 (sys1SelectCT16B1PRE 2 sys1Prescaled) Peripheral.CT16B1 ≠ 2 := by
  decide

/-- C21 (amended): for every macro `sys1Select<X>PRE(pre)`, every prior value
of the registers and every `pre` that fits the field (of any width up to the
4 bits between two shifts), 0 included, the field of the peripheral after the
call is the bitwise OR of its prior value and `pre`; it equals `pre` whenever
the field was 0 before the call. -/
theorem sys1SelectPRE_field (w : Nat) (p : Peripheral) (pre : Nat) (s : SYS1)
    (hw : w ≤ 4) (hpre : pre < 2 ^ w) :
    prescalerField w (sys1SelectPRE p pre s) p = prescalerField w s p ||| pre ∧
      (prescalerField w s p = 0 → prescalerField w (sys1SelectPRE p pre s) p = pre) := by
  have hfield : prescalerField w (sys1SelectPRE p pre s) p = prescalerField w s p ||| pre := by
    unfold prescalerField
    rw [sys1SelectPRE_reg p pre s p.apb p.apb_le]
    by_cases h0 : 0 < pre
    · rw [if_pos ⟨h0, rfl⟩, shifted_fits pre p.shift w hpre (by have := p.shift_le; omega)]
      exact field_after_or _ _ _ _ hpre
    · have hz : pre = 0 := by omega
      rw [if_neg (fun h => h0 h.1), hz, Nat.or_zero]
  refine ⟨hfield, ?_⟩
  intro hzero
  rw [hfield, hzero, Nat.zero_or]

/-- Witness for C21 (amended): `sys1SelectCT16B1PRE(2)` on the state whose
CT16B1 field holds 1. -/
theorem sys1SelectPRE_field_witness :
    prescalerField 4 (sys1SelectPRE Peripheral.CT16B1 2 sys1Prescaled) Peripheral.CT16B1
        = prescalerField 4 sys1Prescaled Peripheral.CT16B1 ||| 2 ∧
      (prescalerField 4 sys1Prescaled Peripheral.CT16B1 = 0 →
        prescalerField 4 (sys1SelectPRE Peripheral.CT16B1 2 sys1Prescaled) Peripheral.CT16B1
          = 2) :=
  sys1SelectPRE_field 4 Peripheral.CT16B1 2 sys1Prescaled (by decide) (by decide)

/-- C27: two different peripherals never share the pair (APB prescaler
register, shift): they use different registers or shifts at least 4 bits
apart, and every shift leaves room for 4 bits below bit 32.  Therefore, for
every `pre < 16`, a call `sys1Select<X>PRE(pre)` leaves the prescaler field
(of any width up to 4 bits) of every other peripheral unchanged. -/
theorem sys1SelectPRE_frame (w : Nat) (p q : Peripheral) (pre : Nat) (s : SYS1)
    (hw : w ≤ 4) (hpq : p ≠ q) (hpre : pre < 16) :
    (p.apb ≠ q.apb ∨ p.shift + 4 ≤ q.shift ∨ q.shift + 4 ≤ p.shift) ∧
      ¬ (p.apb = q.apb ∧ p.shift = q.shift) ∧
      p.shift + 4 ≤ 32 ∧
      prescalerField w (sys1SelectPRE p pre s) q = prescalerField w s q := by
  have hapart := Peripheral.fields_apart p q hpq
  refine ⟨hapart, ?_, p.shift_le, ?_⟩
  · rintro ⟨ha, hs⟩
    rcases hapart with h | h | h
    · exact h ha
    · omega
    · omega
  · unfold prescalerField
    rw [sys1SelectPRE_reg p pre s q.apb q.apb_le]
    by_cases hsame : 0 < pre ∧ q.apb = p.apb
    · rw [if_pos hsame, shifted_fits pre p.shift 4 hpre (by have := p.shift_le; omega)]
      rcases hapart with h | h | h
      · exact absurd hsame.2.symm h
      · exact field_other _ _ _ _ _ hw hpre (Or.inl h)
      · exact field_other _ _ _ _ _ hw hpre (Or.inr h)
    · rw [if_neg hsame]

/-- Witness for C27: `sys1SelectCT16B1PRE(15)` leaves the CT32B0 field, the
next one in the same register, unchanged. -/
theorem sys1SelectPRE_frame_witness :
    (Peripheral.CT16B1.apb ≠ Peripheral.CT32B0.apb ∨
        Peripheral.CT16B1.shift + 4 ≤ Peripheral.CT32B0.shift ∨
        Peripheral.CT32B0.shift + 4 ≤ Peripheral.CT16B1.shift) ∧
      ¬ (Peripheral.CT16B1.apb = Peripheral.CT32B0.apb ∧
        Peripheral.CT16B1.shift = Peripheral.CT32B0.shift) ∧
      Peripheral.CT16B1.shift + 4 ≤ 32 ∧
      prescalerField 4 (sys1SelectPRE Peripheral.CT16B1 15 sys1Prescaled) Peripheral.CT32B0
        = prescalerField 4 sys1Prescaled Peripheral.CT32B0 :=
  sys1SelectPRE_frame 4 Peripheral.CT16B1 Peripheral.CT32B0 15 sys1Prescaled (by decide)
    (by decide) (by decide)

end SN32
